import Mathlib

/-!
Verification of the specflow schema-construction core (`src/_archieve/schema.py`,
`src/_archieve/array_schema.py`, `src/_archieve/object_schema.py`).

The three Python classes `Schema`, `ArraySchema` and `ObjectSchema` take
keyword arguments that are arbitrary runtime values (validation is dynamic,
via `isinstance`), so the embedding works over a universe `PyVal` of Python
values.  A constructed node stores its validated arguments verbatim; `to_dict`
walks the stored fields.  Construction failure is an `Except PyErr` value,
`PyErr` mirroring the two exception classes the code raises (`TypeError`,
`ValueError`).
-/

/-- The two exception kinds raised by the constructors: `TypeError` and
`ValueError` (the spec calls them ShapeError and ConstraintViolation). -/
inductive PyErr : Type where
  | typeError (msg : String)
  | valueError (msg : String)
deriving Repr

/-- Which of the three classes a constructed node is an instance of
(`Schema`, `ArraySchema` or `ObjectSchema`). -/
inductive SchemaKind : Type where
  | base
  | array
  | object
deriving Repr

/-- Python runtime values, as far as the validated call surface needs them:
`None`, `bool`, `int`, `str`, `list`, `dict` (insertion-ordered pairs) and
constructed schema nodes.  A node `schemaObj kind base ext` stores the base
(`Schema.__init__`) fields and the subclass fields as ordered association
lists keyed by the canonical keyword spelling, in the order the source both
assigns and serializes them. -/
inductive PyVal : Type where
  | none : PyVal
  | bool (b : Bool) : PyVal
  | int (n : Int) : PyVal
  | str (s : String) : PyVal
  | list (xs : List PyVal) : PyVal
  | dict (entries : List (PyVal × PyVal)) : PyVal
  | schemaObj (kind : SchemaKind) (base ext : List (String × PyVal)) : PyVal
deriving Repr

/-- `v is None`. -/
def isNoneB : PyVal → Bool
  | PyVal.none => true
  | _ => false

/-- `isinstance(v, str)`. -/
def isStr : PyVal → Bool
  | PyVal.str _ => true
  | _ => false

/-- `isinstance(v, bool)`. -/
def isBool : PyVal → Bool
  | PyVal.bool _ => true
  | _ => false

/-- `isinstance(v, int)`.  In Python `bool` is a subclass of `int`, so
booleans pass this check. -/
def isIntPy : PyVal → Bool
  | PyVal.int _ => true
  | PyVal.bool _ => true
  | _ => false

/-- `isinstance(v, dict)`. -/
def isDict : PyVal → Bool
  | PyVal.dict _ => true
  | _ => false

/-- `isinstance(v, list)`. -/
def isListPy : PyVal → Bool
  | PyVal.list _ => true
  | _ => false

/-- `isinstance(v, Schema)`: all three node classes derive from `Schema`. -/
def isSchemaInst : PyVal → Bool
  | PyVal.schemaObj _ _ _ => true
  | _ => false

/-- `isinstance(v, ArraySchema)`. -/
def isArraySchemaInst : PyVal → Bool
  | PyVal.schemaObj SchemaKind.array _ _ => true
  | _ => false

/-- The string payload of a `str` value (callers guard with `isStr`). -/
def asStr : PyVal → String
  | PyVal.str s => s
  | _ => ""

/-- The elements of a `list` value (callers guard with `isListPy`). -/
def asList : PyVal → List PyVal
  | PyVal.list xs => xs
  | _ => []

/-- The entries of a `dict` value (callers guard with `isDict`). -/
def asDict : PyVal → List (PyVal × PyVal)
  | PyVal.dict es => es
  | _ => []

/-- The integer a value stands for in arithmetic comparisons: Python treats
`True` as `1` and `False` as `0` (callers guard with `isIntPy`). -/
def toI : PyVal → Int
  | PyVal.int n => n
  | PyVal.bool b => if b then 1 else 0
  | _ => 0

/-- `v is True`. -/
def isTrueB : PyVal → Bool
  | PyVal.bool true => true
  | _ => false

/-- The characters Python's `str.strip()` removes (ASCII whitespace). -/
def pyIsSpace (c : Char) : Bool :=
  c == ' ' || c == '\t' || c == '\n' || c == '\r' || c == '\x0b' || c == '\x0c'

/-- `not v.strip()`: the string is empty or all whitespace. -/
def pyBlankStr (s : String) : Bool :=
  s.data.all pyIsSpace

/-- Python `==` on the values that reach key-membership tests in the source
(strings, after validation); numeric cross-kind equality follows Python
(`True == 1`).  Container equality is not needed on any validated path and is
modelled as `false`. -/
def pyEqShallow : PyVal → PyVal → Bool
  | PyVal.none, PyVal.none => true
  | PyVal.str s, PyVal.str t => s == t
  | PyVal.int m, PyVal.int n => m == n
  | PyVal.bool a, PyVal.bool b => a == b
  | PyVal.int m, PyVal.bool b => m == (if b then 1 else 0)
  | PyVal.bool b, PyVal.int m => (if b then (1 : Int) else 0) == m
  | _, _ => false

/-- `key in d` for a Python dict. -/
def dictHasKey (entries : List (PyVal × PyVal)) (k : PyVal) : Bool :=
  entries.any (fun e => pyEqShallow e.1 k)

/-!  ### The URI model

`Schema._is_valid_uri` is `bool(urlparse(uri))` and
`Schema._is_valid_uri_reference` calls `urlparse` and returns `True`; both
catch every exception and return `False`.  `urlparse` returns a six-field
named tuple, which is always truthy, so both helpers return `True` exactly
when `urlparse` does not raise.  `urllib.parse.urlsplit` raises `ValueError`
("Invalid IPv6 URL") precisely when, after removing the tab/CR/LF characters
and stripping a leading `scheme:`, the URL starts with `//` and the
authority component contains `[` without `]` or `]` without `[`.  That raise
condition is what `urlparseRaises` models. -/

/-- The characters `urlsplit` removes from the URL before parsing
(`_UNSAFE_URL_BYTES_TO_REMOVE`: tab, CR, LF). -/
def urlKeepChar (c : Char) : Bool :=
  !(c == '\t' || c == '\r' || c == '\n')

/-- Characters allowed in a scheme (`scheme_chars` in `urllib.parse`). -/
def isSchemeChar (c : Char) : Bool :=
  c.isAlpha || c.isDigit || c == '+' || c == '-' || c == '.'

/-- `urlsplit`'s scheme stripping: when the first `:` is preceded by an ASCII
letter followed by scheme characters only, everything through that `:` is the
scheme and is removed. -/
def dropScheme (l : List Char) : List Char :=
  match l.findIdx? (fun c => c == ':') with
  | Option.none => l
  | Option.some i =>
    if i != 0
        && (match l.head? with
            | Option.some c => c.isAlpha
            | Option.none => false)
        && (l.take i).all isSchemeChar
    then l.drop (i + 1)
    else l

/-- Whether the remainder begins with `//` (so an authority follows). -/
def startsSlashSlash : List Char → Bool
  | '/' :: '/' :: _ => true
  | _ => false

/-- The characters ending the authority component in `_splitnetloc`. -/
def netlocDelim (c : Char) : Bool :=
  c == '/' || c == '?' || c == '#'

/-- The authority (netloc) of a `//`-prefixed remainder. -/
def netlocOf (u : List Char) : List Char :=
  (u.drop 2).takeWhile (fun c => !(netlocDelim c))

/-- Whether `urllib.parse.urlparse` raises `ValueError` on this string:
mismatched square brackets in the authority ("Invalid IPv6 URL"). -/
def urlparseRaises (s : String) : Bool :=
  let l := s.data.filter urlKeepChar
  let u := dropScheme l
  if startsSlashSlash u then
    let nl := netlocOf u
    nl.contains '[' != nl.contains ']'
  else false

/-- `Schema._is_valid_uri`: `bool(urlparse(uri))`.  The parse result is an
always-truthy six-tuple, so this is true exactly when `urlparse` does not
raise. -/
def py_is_valid_uri (s : String) : Bool :=
  !(urlparseRaises s)

/-- `Schema._is_valid_uri_reference`: true exactly when `urlparse` does not
raise. -/
def py_is_valid_uri_reference (s : String) : Bool :=
  !(urlparseRaises s)

/-- Characters the anchor grammar allows after the first one
(`[a-zA-Z0-9_-]`). -/
def isAnchorChar (c : Char) : Bool :=
  c.isAlpha || c.isDigit || c == '_' || c == '-'

/-- `Schema._is_valid_anchor`: no `#`, and the string matches
`[a-zA-Z][a-zA-Z0-9_-]*` anchored at both ends. -/
def py_is_valid_anchor (s : String) : Bool :=
  if s.data.contains '#' then false
  else
    match s.data with
    | [] => false
    | c :: rest => c.isAlpha && rest.all isAnchorChar

/-- Modelled from CPython `re.compile`, restricted to the syntactic shape the
engine always rejects: unbalanced groups `(`/`)`, an unterminated character
class `[`, or a pattern ending in a lone backslash.  The real engine enforces
more; only rejection-versus-acceptance of the patterns appearing in the
claims is relied on. -/
def reScan : List Char → Nat → Bool → Bool
  | [], depth, inClass => !inClass && depth == 0
  | '\\' :: rest, d, ic =>
    match rest with
    | [] => false
    | _ :: r => reScan r d ic
  | '[' :: rest, d, false => reScan rest d true
  | ']' :: rest, d, true => reScan rest d false
  | '(' :: rest, d, false => reScan rest (d + 1) false
  | ')' :: rest, d, false => if d == 0 then false else reScan rest (d - 1) false
  | _ :: rest, d, ic => reScan rest d ic

/-- Whether `re.compile` accepts the pattern (see `reScan`). -/
def re_compile_ok (s : String) : Bool :=
  reScan s.data 0 false

example : re_compile_ok "(unclosed" = false := by decide
example : re_compile_ok "^[a-z]+$" = true := by decide
example : py_is_valid_anchor "a-b_c1" = true := by decide
example : py_is_valid_anchor "1ab" = false := by decide
example : py_is_valid_anchor "a#b" = false := by decide
example : urlparseRaises "http://[::1" = true := by decide
example : urlparseRaises "http://example.com/a?b#c" = false := by decide
example : py_is_valid_uri "definitely not a uri" = true := by decide

/-!  ### Syntactic URI-reference validity (the claim-side notion)

The spec requires `$ref`/`$dynamicRef`/`$recursiveRef` to be syntactically
valid URI-references (RFC 3986).  The repository delegates URI checking to
`urllib.parse` (an external collaborator), so the RFC notion is formalised
here directly, using the same first-match decomposition as RFC 3986
appendix B: optional scheme, optional `//`-authority, then
path `[? query] [# fragment]`, with per-component character classes.  The
character classes over-approximate percent-encoding (a lone `%` is accepted)
and the inside of an IP-literal; the bracket structure of the authority is
exact. -/

/-- RFC 3986 `unreserved`. -/
def isUnreserved (c : Char) : Bool :=
  c.isAlpha || c.isDigit || c == '-' || c == '.' || c == '_' || c == '~'

/-- RFC 3986 `sub-delims`. -/
def isSubDelim (c : Char) : Bool :=
  c == '!' || c == '$' || c == '&' || c == Char.ofNat 39 || c == '(' || c == ')'
    || c == '*' || c == '+' || c == ',' || c == ';' || c == '='

/-- RFC 3986 `pchar` (with `%` over-approximating `pct-encoded`). -/
def isPChar (c : Char) : Bool :=
  isUnreserved c || isSubDelim c || c == '%' || c == ':' || c == '@'

/-- Characters of a path: `pchar` and `/`. -/
def isPathChar (c : Char) : Bool :=
  isPChar c || c == '/'

/-- Characters of a query or fragment: `pchar`, `/` and `?`. -/
def isQFChar (c : Char) : Bool :=
  isPChar c || c == '/' || c == '?'

/-- Characters of `userinfo`. -/
def isUserinfoChar (c : Char) : Bool :=
  isUnreserved c || isSubDelim c || c == '%' || c == ':'

/-- Characters of `reg-name`. -/
def isRegNameChar (c : Char) : Bool :=
  isUnreserved c || isSubDelim c || c == '%'

/-- A hexadecimal digit. -/
def isHexC (c : Char) : Bool :=
  c.isDigit || (decide ('a' ≤ c) && decide (c ≤ 'f'))
    || (decide ('A' ≤ c) && decide (c ≤ 'F'))

/-- Split a character list on a separator (no separator yields one part;
adjacent separators yield empty parts). -/
def splitOn (c : Char) : List Char → List (List Char)
  | [] => [[]]
  | x :: rest =>
    match splitOn c rest with
    | [] => [[x]]
    | g :: gs => if x == c then [] :: g :: gs else (x :: g) :: gs

/-- Split at the first `::`, when present. -/
def splitAtDoubleColon : List Char → Option (List Char × List Char)
  | [] => Option.none
  | ':' :: ':' :: rest => Option.some ([], rest)
  | x :: rest => (splitAtDoubleColon rest).map (fun p => (x :: p.1, p.2))

/-- RFC 3986 `dec-octet`: 0-255 without leading zeros. -/
def decOctet : List Char → Bool
  | [a] => a.isDigit
  | [a, b] => a.isDigit && b.isDigit && !(a == '0')
  | [a, b, c] =>
    a.isDigit && b.isDigit && c.isDigit && !(a == '0')
      && (a.toNat - 48) * 100 + (b.toNat - 48) * 10 + (c.toNat - 48) ≤ 255
  | _ => false

/-- RFC 3986 `IPv4address`: four dec-octets. -/
def isIPv4 (l : List Char) : Bool :=
  match splitOn '.' l with
  | [a, b, c, d] => decOctet a && decOctet b && decOctet c && decOctet d
  | _ => false

/-- An IPv6 group: one to four hexadecimal digits. -/
def isHexGroup (g : List Char) : Bool :=
  !g.isEmpty && g.length ≤ 4 && g.all isHexC

/-- The parts of an IPv6 side (before or after `::`), hex groups with an
optional trailing IPv4 counting as two groups: `none` when malformed,
otherwise the group count. -/
def ipv6SideCount (l : List Char) : Option Nat :=
  if l.isEmpty then Option.some 0
  else
    let ps := splitOn ':' l
    match ps.getLast? with
    | Option.none => Option.none
    | Option.some lastg =>
      if lastg.contains '.' then
        if ps.dropLast.all isHexGroup && isIPv4 lastg then Option.some (ps.length + 1)
        else Option.none
      else if ps.all isHexGroup then Option.some ps.length
      else Option.none

/-- RFC 3986 / RFC 4291 `IPv6address` in text form: eight groups, six
groups and an IPv4 tail, or a single `::` compression covering at least one
group. -/
def isIPv6 (l : List Char) : Bool :=
  match splitAtDoubleColon l with
  | Option.none =>
    (match ipv6SideCount l with
     | Option.some n => n == 8 && !l.isEmpty
     | Option.none => false)
  | Option.some (a, b) =>
    (match ipv6SideCount a, ipv6SideCount b with
     | Option.some m, Option.some n => m + n ≤ 7
     | _, _ => false)

/-- RFC 3986 `IPvFuture`: `v` then hex digits, a dot, and at least one
unreserved/sub-delims/`:` character. -/
def isIPvFuture : List Char → Bool
  | c :: rest =>
    (c == 'v' || c == 'V')
      && (let h := rest.takeWhile (fun x => !(x == '.'))
          !h.isEmpty && h.all isHexC
            && (match rest.dropWhile (fun x => !(x == '.')) with
                | '.' :: tt =>
                  !tt.isEmpty && tt.all (fun x => isUnreserved x || isSubDelim x || x == ':')
                | _ => false))
  | [] => false

/-- The content allowed between the brackets of an IP-literal (RFC 6874
zone identifiers are not modelled). -/
def ipLiteralOK (inner : List Char) : Bool :=
  isIPv6 inner || isIPvFuture inner

/-- Split at the first character satisfying `p`: the prefix before it and the
suffix from it on (empty when there is none). -/
def splitFirst (p : Char → Bool) (l : List Char) : List Char × List Char :=
  (l.takeWhile (fun c => !(p c)), l.dropWhile (fun c => !(p c)))

/-- What may follow a bracketed host: nothing, or `:` and digits. -/
def portTailOK : List Char → Bool
  | [] => true
  | ':' :: digits => digits.all Char.isDigit
  | _ => false

/-- The inside of an IP-literal: the part after `[` must close with `]`,
the content must be a well-formed IPv6 address or IPvFuture literal, and
only a port may follow the bracket. -/
def bracketHost (rest : List Char) : Bool :=
  match rest.dropWhile (fun c => !(c == ']')) with
  | ']' :: tail =>
    ipLiteralOK (rest.takeWhile (fun c => !(c == ']')))
      && portTailOK tail
  | _ => false

/-- What may follow a reg-name host at the first `:`: nothing, or the `:`
and digits. -/
def regPortOK : List Char → Bool
  | [] => true
  | _ :: digits => digits.all Char.isDigit

/-- A bracket-free `reg-name` host with an optional `: port`. -/
def regNameHost (hp : List Char) : Bool :=
  !(hp.contains '[') && !(hp.contains ']')
    && (splitFirst (fun c => c == ':') hp).1.all isRegNameChar
    && regPortOK (splitFirst (fun c => c == ':') hp).2

/-- RFC 3986 `host [: port]`: either a bracketed IP-literal or a
bracket-free `reg-name`. -/
def hostportOK (hp : List Char) : Bool :=
  if hp.head? = Option.some '[' then bracketHost hp.tail else regNameHost hp

/-- RFC 3986 `authority`: optional `userinfo @`, then host and optional
port. -/
def validAuthority (a : List Char) : Bool :=
  match splitFirst (fun c => c == '@') a with
  | (_, []) => hostportOK a
  | (ui, _ :: t) => ui.all isUserinfoChar && hostportOK t

/-- `path [? query] [# fragment]`: split at the first `#`, then the first
`?`, and check each component's characters. -/
def validPQF (l : List Char) : Bool :=
  let f := splitFirst (fun c => c == '#') l
  let frag : List Char := match f.2 with
    | [] => []
    | _ :: t => t
  let q := splitFirst (fun c => c == '?') f.1
  let query : List Char := match q.2 with
    | [] => []
    | _ :: t => t
  q.1.all isPathChar && query.all isQFChar && frag.all isQFChar

/-- The decomposed RFC 3986 check on a character list: strip a syntactically
well-formed scheme if one is present, then either `// authority` followed by
path/query/fragment, or path/query/fragment alone. -/
def isValidURIRefCore (l : List Char) : Bool :=
  let u := dropScheme l
  if startsSlashSlash u then
    validAuthority (netlocOf u) && validPQF ((u.drop 2).dropWhile (fun c => !(netlocDelim c)))
  else validPQF u

/-- Syntactic validity as a URI-reference (RFC 3986, see the section
comment).  Tab, CR and LF are invalid anywhere in a URI-reference, which the
leading conjunct makes explicit. -/
def isValidURIReference (s : String) : Bool :=
  s.data.all urlKeepChar && isValidURIRefCore s.data

example : isValidURIReference "https://user@example.com:8080/a/b?x=1#frag" = true := by decide
example : isValidURIReference "//[2001:db8::1]:80/x" = true := by decide
example : isValidURIReference "relative/path#f" = true := by decide
example : isValidURIReference "" = true := by decide
example : isValidURIReference "http://exa mple.com" = false := by decide
example : isValidURIReference "http://[::1" = false := by decide
example : isValidURIReference "http://[abc]/x" = false := by decide
example : isValidURIReference "a b" = false := by decide
example : isIPv6 "::".data = true := by decide
example : isIPv6 "2001:db8::8a2e:370:7334".data = true := by decide
example : isIPv6 "::ffff:192.0.2.128".data = true := by decide
example : isIPv6 "1:2:3:4:5:6:7:8".data = true := by decide
example : isIPv6 "1:2:3:4:5:6:7:8:9".data = false := by decide
example : isIPv6 "1:2".data = false := by decide
example : isIPvFuture "vg.x".data = false := by decide
example : isIPvFuture "v1.x:y".data = true := by decide

/-!  ### Constructor arguments

One structure per constructor, a field per keyword argument, every field
defaulting to `None` exactly as in the Python signatures.  `then`, `else`,
`not` and `if` are Lean keywords, so those fields carry the trailing
underscore the Python source already uses for `not_`, `if_` and `else_`. -/

/-- The keyword arguments of `Schema.__init__`. -/
structure BaseArgs : Type where
  id_ : PyVal := PyVal.none
  schema : PyVal := PyVal.none
  ref : PyVal := PyVal.none
  dynamic_ref : PyVal := PyVal.none
  recursive_ref : PyVal := PyVal.none
  definitions : PyVal := PyVal.none
  defs : PyVal := PyVal.none
  comment : PyVal := PyVal.none
  anchor : PyVal := PyVal.none
  dynamic_anchor : PyVal := PyVal.none
  vocabulary : PyVal := PyVal.none
  title : PyVal := PyVal.none
  description : PyVal := PyVal.none
  recursive_anchor : PyVal := PyVal.none
  deprecated : PyVal := PyVal.none
  read_only : PyVal := PyVal.none
  write_only : PyVal := PyVal.none

/-- The keyword arguments of `ArraySchema.__init__` (base ones included). -/
structure ArrayArgs extends BaseArgs where
  items : PyVal := PyVal.none
  prefix_items : PyVal := PyVal.none
  contains : PyVal := PyVal.none
  min_items : PyVal := PyVal.none
  max_items : PyVal := PyVal.none
  min_contains : PyVal := PyVal.none
  max_contains : PyVal := PyVal.none
  all_of : PyVal := PyVal.none
  any_of : PyVal := PyVal.none
  one_of : PyVal := PyVal.none
  not_ : PyVal := PyVal.none
  if_ : PyVal := PyVal.none
  then_ : PyVal := PyVal.none
  else_ : PyVal := PyVal.none
  unique_items : PyVal := PyVal.none
  unevaluated_items : PyVal := PyVal.none

/-- The keyword arguments of `ObjectSchema.__init__` (base ones included). -/
structure ObjectArgs extends BaseArgs where
  properties : PyVal := PyVal.none
  pattern_properties : PyVal := PyVal.none
  required : PyVal := PyVal.none
  property_names : PyVal := PyVal.none
  min_properties : PyVal := PyVal.none
  max_properties : PyVal := PyVal.none
  dependent_required : PyVal := PyVal.none
  dependent_schemas : PyVal := PyVal.none
  all_of : PyVal := PyVal.none
  any_of : PyVal := PyVal.none
  one_of : PyVal := PyVal.none
  not_ : PyVal := PyVal.none
  if_ : PyVal := PyVal.none
  then_ : PyVal := PyVal.none
  else_ : PyVal := PyVal.none
  additional_properties : PyVal := PyVal.none
  unevaluated_properties : PyVal := PyVal.none

/-!  ### Validation

Each `if` statement of the Python constructors becomes one small check
returning `Option PyErr` (`some` = the exception raised), and a constructor
is the first `some` of its checks in source order — Python's fail-fast
semantics. -/

/-- The first error among the checks, in order (fail-fast). -/
def firstSome : List (Option PyErr) → Option PyErr
  | [] => Option.none
  | Option.none :: rest => firstSome rest
  | Option.some e :: _ => Option.some e

/-- The `$id`/`$schema` check: non-empty string, then `_is_valid_uri`. -/
def checkUriKw (kw : String) (v : PyVal) : Option PyErr :=
  if isNoneB v then Option.none
  else if !(isStr v) || pyBlankStr (asStr v) then
    Option.some (PyErr.valueError (kw ++ " must be a non-empty string"))
  else if !(py_is_valid_uri (asStr v)) then
    Option.some (PyErr.valueError (kw ++ " must be a valid URI: " ++ asStr v))
  else Option.none

/-- The `$ref`/`$dynamicRef`/`$recursiveRef` check: non-empty string, then
`_is_valid_uri_reference`. -/
def checkUriRefKw (kw : String) (v : PyVal) : Option PyErr :=
  if isNoneB v then Option.none
  else if !(isStr v) || pyBlankStr (asStr v) then
    Option.some (PyErr.valueError (kw ++ " must be a non-empty string"))
  else if !(py_is_valid_uri_reference (asStr v)) then
    Option.some (PyErr.valueError (kw ++ " must be a valid URI reference: " ++ asStr v))
  else Option.none

/-- Mutual exclusion of the three reference keywords. -/
def checkRefExcl (r d rc : PyVal) : Option PyErr :=
  if (!(isNoneB r) && !(isNoneB d)) || (!(isNoneB r) && !(isNoneB rc))
      || (!(isNoneB d) && !(isNoneB rc)) then
    Option.some (PyErr.valueError
      "Only one reference type allowed: $ref, $dynamicRef, or $recursiveRef")
  else Option.none

/-- Mutual exclusion of the three anchor keywords. -/
def checkAnchorExcl (a d ra : PyVal) : Option PyErr :=
  if (!(isNoneB a) && !(isNoneB d)) || (!(isNoneB a) && !(isNoneB ra))
      || (!(isNoneB d) && !(isNoneB ra)) then
    Option.some (PyErr.valueError
      "Only one anchor type allowed: $anchor, $dynamicAnchor, or $recursiveAnchor")
  else Option.none

/-- The `$anchor`/`$dynamicAnchor` check: non-empty string matching the
fragment-identifier grammar. -/
def checkAnchorKw (kw : String) (v : PyVal) : Option PyErr :=
  if isNoneB v then Option.none
  else if !(isStr v) || pyBlankStr (asStr v) then
    Option.some (PyErr.valueError (kw ++ " must be a non-empty string"))
  else if !(py_is_valid_anchor (asStr v)) then
    Option.some (PyErr.valueError
      (kw ++ " must be a valid fragment identifier (no '#'): " ++ asStr v))
  else Option.none

/-- `$recursiveAnchor` must be a boolean when supplied. -/
def checkRecAnchor (v : PyVal) : Option PyErr :=
  if !(isNoneB v) && !(isBool v) then
    Option.some (PyErr.valueError "$recursiveAnchor must be a boolean")
  else Option.none

/-- The per-entry loop of the `$vocabulary` check. -/
def vocabEntries : List (PyVal × PyVal) → Option PyErr
  | [] => Option.none
  | (k, req) :: rest =>
    if !(isStr k) || pyBlankStr (asStr k) then
      Option.some (PyErr.valueError "$vocabulary keys must be non-empty URI strings")
    else if !(py_is_valid_uri (asStr k)) then
      Option.some (PyErr.valueError ("$vocabulary key must be a valid URI: " ++ asStr k))
    else if !(isBool req) then
      Option.some (PyErr.typeError ("$vocabulary values must be boolean: " ++ asStr k))
    else vocabEntries rest

/-- The `$vocabulary` check: a dict of valid-URI keys and boolean values. -/
def checkVocab (v : PyVal) : Option PyErr :=
  if isNoneB v then Option.none
  else if !(isDict v) then
    Option.some (PyErr.valueError "$vocabulary must be a dictionary")
  else vocabEntries (asDict v)

/-- `readOnly` and `writeOnly` cannot both be `True`. -/
def checkReadWrite (ro wo : PyVal) : Option PyErr :=
  if isTrueB ro && isTrueB wo then
    Option.some (PyErr.valueError "Schema cannot be both readOnly and writeOnly")
  else Option.none

/-- `readOnly`/`writeOnly` must be booleans when supplied (a `ValueError` in
the source). -/
def checkBoolValKw (kw : String) (v : PyVal) : Option PyErr :=
  if !(isNoneB v) && !(isBool v) then
    Option.some (PyErr.valueError (kw ++ " must be a boolean"))
  else Option.none

/-- `definitions` and `$defs` are mutually exclusive. -/
def checkDefsExcl (d1 d2 : PyVal) : Option PyErr :=
  if !(isNoneB d1) && !(isNoneB d2) then
    Option.some (PyErr.valueError
      "Use either 'definitions' (draft-07) or '$defs' (2019-09+), not both")
  else Option.none

/-- The key loop of the `definitions`/`$defs` check. -/
def defsKeys (kw : String) : List (PyVal × PyVal) → Option PyErr
  | [] => Option.none
  | (k, _) :: rest =>
    if !(isStr k) || pyBlankStr (asStr k) then
      Option.some (PyErr.valueError (kw ++ " keys must be non-empty strings"))
    else defsKeys kw rest

/-- The `definitions`/`$defs` check: a dict with non-blank string keys
(values are not validated). -/
def checkDefsKw (kw : String) (v : PyVal) : Option PyErr :=
  if isNoneB v then Option.none
  else if !(isDict v) then
    Option.some (PyErr.valueError (kw ++ " must be a dictionary"))
  else defsKeys kw (asDict v)

/-- All checks of `Schema.__init__` in source order.  `comment`, `title`,
`description` and `deprecated` are stored without validation. -/
def baseChecks (b : BaseArgs) : List (Option PyErr) :=
  [checkUriKw "$id" b.id_,
   checkUriKw "$schema" b.schema,
   checkRefExcl b.ref b.dynamic_ref b.recursive_ref,
   checkUriRefKw "$ref" b.ref,
   checkUriRefKw "$dynamicRef" b.dynamic_ref,
   checkUriRefKw "$recursiveRef" b.recursive_ref,
   checkAnchorExcl b.anchor b.dynamic_anchor b.recursive_anchor,
   checkAnchorKw "$anchor" b.anchor,
   checkAnchorKw "$dynamicAnchor" b.dynamic_anchor,
   checkRecAnchor b.recursive_anchor,
   checkVocab b.vocabulary,
   checkReadWrite b.read_only b.write_only,
   checkBoolValKw "readOnly" b.read_only,
   checkBoolValKw "writeOnly" b.write_only,
   checkDefsExcl b.definitions b.defs,
   checkDefsKw "definitions" b.definitions,
   checkDefsKw "$defs" b.defs]

/-- The validation of `Schema.__init__`: the first raised exception, if
any. -/
def baseValidate (b : BaseArgs) : Option PyErr :=
  firstSome (baseChecks b)

/-- The base fields a node stores (`self._id_ = id_` and the rest), keyed by
canonical spelling, in assignment order — which is also the order
`Schema.to_dict` emits them. -/
def baseFields (b : BaseArgs) : List (String × PyVal) :=
  [("$id", b.id_),
   ("$schema", b.schema),
   ("$ref", b.ref),
   ("$dynamicRef", b.dynamic_ref),
   ("$recursiveRef", b.recursive_ref),
   ("definitions", b.definitions),
   ("$defs", b.defs),
   ("$comment", b.comment),
   ("$anchor", b.anchor),
   ("$dynamicAnchor", b.dynamic_anchor),
   ("$recursiveAnchor", b.recursive_anchor),
   ("$vocabulary", b.vocabulary),
   ("title", b.title),
   ("description", b.description),
   ("deprecated", b.deprecated),
   ("readOnly", b.read_only),
   ("writeOnly", b.write_only)]

/-- `Schema(...)`: validate, then store the arguments verbatim. -/
def mkSchema (b : BaseArgs) : Except PyErr PyVal :=
  match baseValidate b with
  | Option.some e => Except.error e
  | Option.none => Except.ok (PyVal.schemaObj SchemaKind.base (baseFields b) [])

example : mkSchema {} = Except.ok (PyVal.schemaObj SchemaKind.base (baseFields {}) []) := rfl
example : mkSchema { read_only := PyVal.bool true, write_only := PyVal.bool true }
    = Except.error (PyErr.valueError "Schema cannot be both readOnly and writeOnly") := rfl
example : mkSchema { ref := PyVal.str "a", dynamic_ref := PyVal.str "b" }
    = Except.error (PyErr.valueError
        "Only one reference type allowed: $ref, $dynamicRef, or $recursiveRef") := rfl

/-- The `items` check: a `Schema` or a list of `Schema`s. -/
def itemsMembers : List PyVal → Option PyErr
  | [] => Option.none
  | x :: rest =>
    if !(isSchemaInst x) then
      Option.some (PyErr.typeError "All items in 'items' list must be Schema instances")
    else itemsMembers rest

/-- The `items` check of `ArraySchema.__init__`. -/
def checkItems (v : PyVal) : Option PyErr :=
  if isNoneB v then Option.none
  else if isListPy v then itemsMembers (asList v)
  else if !(isSchemaInst v) then
    Option.some (PyErr.typeError "items must be a Schema instance or list of Schema instances")
  else Option.none

/-- The member loop of the `prefixItems` check. -/
def prefixItemsMembers : List PyVal → Option PyErr
  | [] => Option.none
  | x :: rest =>
    if !(isSchemaInst x) then
      Option.some (PyErr.typeError "All items in prefixItems must be Schema instances")
    else prefixItemsMembers rest

/-- The `prefixItems` check: a list of `Schema`s. -/
def checkPrefixItems (v : PyVal) : Option PyErr :=
  if isNoneB v then Option.none
  else if !(isListPy v) then
    Option.some (PyErr.typeError "prefixItems must be a list")
  else prefixItemsMembers (asList v)

/-- The `contains` check: a `Schema` instance. -/
def checkContains (v : PyVal) : Option PyErr :=
  if !(isNoneB v) && !(isSchemaInst v) then
    Option.some (PyErr.typeError "contains must be a Schema instance")
  else Option.none

/-- An integer bound check: integer kind (booleans pass, as in Python), then
non-negativity. -/
def checkIntKw (kw : String) (v : PyVal) : Option PyErr :=
  if isNoneB v then Option.none
  else if !(isIntPy v) then
    Option.some (PyErr.typeError (kw ++ " must be an integer"))
  else if toI v < 0 then
    Option.some (PyErr.valueError (kw ++ " must be non-negative"))
  else Option.none

/-- A `min`/`max` pair check: when both are supplied, min cannot exceed
max. -/
def checkPairKw (kwmin kwmax : String) (vmin vmax : PyVal) : Option PyErr :=
  if !(isNoneB vmin) && !(isNoneB vmax) && toI vmin > toI vmax then
    Option.some (PyErr.valueError (kwmin ++ " cannot be greater than " ++ kwmax))
  else Option.none

/-- The `minContains`/`maxContains` check: integer kind, non-negativity, and
`contains` must be supplied. -/
def checkContainsBound (kw : String) (v contains : PyVal) : Option PyErr :=
  if isNoneB v then Option.none
  else if !(isIntPy v) then
    Option.some (PyErr.typeError (kw ++ " must be an integer"))
  else if toI v < 0 then
    Option.some (PyErr.valueError (kw ++ " must be non-negative"))
  else if isNoneB contains then
    Option.some (PyErr.valueError (kw ++ " requires contains to be specified"))
  else Option.none

/-- A boolean keyword check raising `TypeError` (array/object files). -/
def checkBoolTypeKw (kw : String) (v : PyVal) : Option PyErr :=
  if !(isNoneB v) && !(isBool v) then
    Option.some (PyErr.typeError (kw ++ " must be a boolean"))
  else Option.none

/-- A `Schema`-or-boolean keyword check (`unevaluatedItems`,
`additionalProperties`, `unevaluatedProperties`). -/
def checkSchemaBoolKw (kw : String) (v : PyVal) : Option PyErr :=
  if !(isNoneB v) && !(isSchemaInst v || isBool v) then
    Option.some (PyErr.typeError (kw ++ " must be a Schema instance or boolean"))
  else Option.none

/-- The member loop of an `ArraySchema` composition keyword: every member
must be an `ArraySchema`. -/
def compMembersArr (kw : String) : List PyVal → Option PyErr
  | [] => Option.none
  | x :: rest =>
    if !(isArraySchemaInst x) then
      Option.some (PyErr.typeError ("All " ++ kw ++ " items must be ArraySchema instances"))
    else compMembersArr kw rest

/-- An `ArraySchema` composition keyword check (`allOf`/`anyOf`/`oneOf`):
a non-empty list of `ArraySchema`s. -/
def checkCompArr (kw : String) (v : PyVal) : Option PyErr :=
  if isNoneB v then Option.none
  else if !(isListPy v) then
    Option.some (PyErr.typeError (kw ++ " must be a list"))
  else if (asList v).isEmpty then
    Option.some (PyErr.valueError (kw ++ " must contain at least one schema"))
  else compMembersArr kw (asList v)

/-- An `ArraySchema`-valued keyword check (`not`/`if`/`then`/`else` in the
array file). -/
def checkNodeArr (kw : String) (v : PyVal) : Option PyErr :=
  if !(isNoneB v) && !(isArraySchemaInst v) then
    Option.some (PyErr.typeError (kw ++ " must be an ArraySchema instance"))
  else Option.none

/-- `then`/`else` require `if`. -/
def checkCondReq (if_ then_ else_ : PyVal) : Option PyErr :=
  if (!(isNoneB then_) || !(isNoneB else_)) && isNoneB if_ then
    Option.some (PyErr.valueError "'then' and 'else' require 'if' to be specified")
  else Option.none

/-- All checks of `ArraySchema.__init__` after the `super().__init__` call,
in source order. -/
def arrayChecks (a : ArrayArgs) : List (Option PyErr) :=
  [checkItems a.items,
   checkPrefixItems a.prefix_items,
   checkContains a.contains,
   checkIntKw "minItems" a.min_items,
   checkIntKw "maxItems" a.max_items,
   checkPairKw "minItems" "maxItems" a.min_items a.max_items,
   checkContainsBound "minContains" a.min_contains a.contains,
   checkContainsBound "maxContains" a.max_contains a.contains,
   checkPairKw "minContains" "maxContains" a.min_contains a.max_contains,
   checkBoolTypeKw "uniqueItems" a.unique_items,
   checkSchemaBoolKw "unevaluatedItems" a.unevaluated_items,
   checkCompArr "allOf" a.all_of,
   checkCompArr "anyOf" a.any_of,
   checkCompArr "oneOf" a.one_of,
   checkNodeArr "not" a.not_,
   checkCondReq a.if_ a.then_ a.else_,
   checkNodeArr "if" a.if_,
   checkNodeArr "then" a.then_,
   checkNodeArr "else" a.else_]

/-- The validation of the array-specific keywords. -/
def arrayValidate (a : ArrayArgs) : Option PyErr :=
  firstSome (arrayChecks a)

/-- The array-specific fields a node stores, keyed by canonical spelling, in
assignment (= serialization) order. -/
def arrayFields (a : ArrayArgs) : List (String × PyVal) :=
  [("items", a.items),
   ("prefixItems", a.prefix_items),
   ("contains", a.contains),
   ("minItems", a.min_items),
   ("maxItems", a.max_items),
   ("minContains", a.min_contains),
   ("maxContains", a.max_contains),
   ("uniqueItems", a.unique_items),
   ("unevaluatedItems", a.unevaluated_items),
   ("allOf", a.all_of),
   ("anyOf", a.any_of),
   ("oneOf", a.one_of),
   ("not", a.not_),
   ("if", a.if_),
   ("then", a.then_),
   ("else", a.else_)]

/-- `ArraySchema(...)`: the base validation runs first (the
`super().__init__` call), then the array checks. -/
def mkArraySchema (a : ArrayArgs) : Except PyErr PyVal :=
  match baseValidate a.toBaseArgs with
  | Option.some e => Except.error e
  | Option.none =>
    match arrayValidate a with
    | Option.some e => Except.error e
    | Option.none =>
      Except.ok (PyVal.schemaObj SchemaKind.array (baseFields a.toBaseArgs) (arrayFields a))

/-- The entry loop of the `properties` check: non-blank string keys, `Schema`
values. -/
def propsEntries : List (PyVal × PyVal) → Option PyErr
  | [] => Option.none
  | (k, v) :: rest =>
    if !(isStr k) || pyBlankStr (asStr k) then
      Option.some (PyErr.valueError "properties keys must be non-empty strings")
    else if !(isSchemaInst v) then
      Option.some (PyErr.typeError "properties values must be Schema instances")
    else propsEntries rest

/-- The `properties` check of `ObjectSchema.__init__`. -/
def checkProperties (v : PyVal) : Option PyErr :=
  if isNoneB v then Option.none
  else if !(isDict v) then
    Option.some (PyErr.typeError "properties must be a dictionary")
  else propsEntries (asDict v)

/-- The entry loop of the `patternProperties` check: non-blank string keys
that compile as regular expressions, `Schema` values.  The source message
interpolates the `re.error` text; the model keeps the fixed prefix. -/
def patternPropsEntries : List (PyVal × PyVal) → Option PyErr
  | [] => Option.none
  | (k, v) :: rest =>
    if !(isStr k) || pyBlankStr (asStr k) then
      Option.some (PyErr.valueError "patternProperties keys must be non-empty strings")
    else if !(re_compile_ok (asStr k)) then
      Option.some (PyErr.valueError "patternProperties key must be a valid regular expression: ")
    else if !(isSchemaInst v) then
      Option.some (PyErr.typeError "patternProperties values must be Schema instances")
    else patternPropsEntries rest

/-- The `patternProperties` check. -/
def checkPatternProps (v : PyVal) : Option PyErr :=
  if isNoneB v then Option.none
  else if !(isDict v) then
    Option.some (PyErr.typeError "patternProperties must be a dictionary")
  else patternPropsEntries (asDict v)

/-- The name loop of the `required` check: non-blank strings. -/
def requiredNames : List PyVal → Option PyErr
  | [] => Option.none
  | x :: rest =>
    if !(isStr x) || pyBlankStr (asStr x) then
      Option.some (PyErr.valueError "required property names must be non-empty strings")
    else requiredNames rest

/-- The `required` check: a non-empty list of non-blank strings. -/
def checkRequired (v : PyVal) : Option PyErr :=
  if isNoneB v then Option.none
  else if !(isListPy v) then
    Option.some (PyErr.typeError "required must be a list")
  else if (asList v).isEmpty then
    Option.some (PyErr.valueError "required must contain at least one property name")
  else requiredNames (asList v)

/-- A `Schema`-valued keyword check in the object file
(`propertyNames`/`not`/`if`/`then`/`else`). -/
def checkNodeObj (kw : String) (v : PyVal) : Option PyErr :=
  if !(isNoneB v) && !(isSchemaInst v) then
    Option.some (PyErr.typeError (kw ++ " must be a Schema instance"))
  else Option.none

/-- The inner name loop of a `dependentRequired` value. -/
def depReqNames : List PyVal → Option PyErr
  | [] => Option.none
  | x :: rest =>
    if !(isStr x) || pyBlankStr (asStr x) then
      Option.some (PyErr.valueError "dependentRequired property names must be non-empty strings")
    else depReqNames rest

/-- The entry loop of the `dependentRequired` check. -/
def depReqEntries : List (PyVal × PyVal) → Option PyErr
  | [] => Option.none
  | (k, v) :: rest =>
    if !(isStr k) || pyBlankStr (asStr k) then
      Option.some (PyErr.valueError "dependentRequired keys must be non-empty strings")
    else if !(isListPy v) then
      Option.some (PyErr.typeError "dependentRequired values must be lists")
    else if (asList v).isEmpty then
      Option.some (PyErr.valueError
        "dependentRequired lists must contain at least one property name")
    else
      match depReqNames (asList v) with
      | Option.some e => Option.some e
      | Option.none => depReqEntries rest

/-- The `dependentRequired` check: keys to non-empty lists of non-blank
names. -/
def checkDepReq (v : PyVal) : Option PyErr :=
  if isNoneB v then Option.none
  else if !(isDict v) then
    Option.some (PyErr.typeError "dependentRequired must be a dictionary")
  else depReqEntries (asDict v)

/-- The entry loop of the `dependentSchemas` check. -/
def depSchemasEntries : List (PyVal × PyVal) → Option PyErr
  | [] => Option.none
  | (k, v) :: rest =>
    if !(isStr k) || pyBlankStr (asStr k) then
      Option.some (PyErr.valueError "dependentSchemas keys must be non-empty strings")
    else if !(isSchemaInst v) then
      Option.some (PyErr.typeError "dependentSchemas values must be Schema instances")
    else depSchemasEntries rest

/-- The `dependentSchemas` check: keys to `Schema` values. -/
def checkDepSchemas (v : PyVal) : Option PyErr :=
  if isNoneB v then Option.none
  else if !(isDict v) then
    Option.some (PyErr.typeError "dependentSchemas must be a dictionary")
  else depSchemasEntries (asDict v)

/-- The member loop of an `ObjectSchema` composition keyword: members need
only be `Schema` instances (any family). -/
def compMembersObj (kw : String) : List PyVal → Option PyErr
  | [] => Option.none
  | x :: rest =>
    if !(isSchemaInst x) then
      Option.some (PyErr.typeError ("All " ++ kw ++ " items must be Schema instances"))
    else compMembersObj kw rest

/-- An `ObjectSchema` composition keyword check (`allOf`/`anyOf`/`oneOf`):
a non-empty list of `Schema`s. -/
def checkCompObj (kw : String) (v : PyVal) : Option PyErr :=
  if isNoneB v then Option.none
  else if !(isListPy v) then
    Option.some (PyErr.typeError (kw ++ " must be a list"))
  else if (asList v).isEmpty then
    Option.some (PyErr.valueError (kw ++ " must contain at least one schema"))
  else compMembersObj kw (asList v)

/-- The final `required`-against-`properties` loop: every required name must
be a `properties` key; the error cites the first missing name. -/
def reqPropsLoop (properties : List (PyVal × PyVal)) : List PyVal → Option PyErr
  | [] => Option.none
  | x :: rest =>
    if !(dictHasKey properties x) then
      Option.some (PyErr.valueError
        ("required property '" ++ asStr x ++ "' is not defined in properties"))
    else reqPropsLoop properties rest

/-- The `required`/`properties` consistency check, run last and only when
both are supplied. -/
def checkReqProps (required properties : PyVal) : Option PyErr :=
  if !(isNoneB required) && !(isNoneB properties) then
    reqPropsLoop (asDict properties) (asList required)
  else Option.none

/-- All checks of `ObjectSchema.__init__` after the `super().__init__` call,
in source order (the `required`-in-`properties` check comes last). -/
def objectChecks (o : ObjectArgs) : List (Option PyErr) :=
  [checkProperties o.properties,
   checkPatternProps o.pattern_properties,
   checkSchemaBoolKw "additionalProperties" o.additional_properties,
   checkSchemaBoolKw "unevaluatedProperties" o.unevaluated_properties,
   checkRequired o.required,
   checkNodeObj "propertyNames" o.property_names,
   checkIntKw "minProperties" o.min_properties,
   checkIntKw "maxProperties" o.max_properties,
   checkPairKw "minProperties" "maxProperties" o.min_properties o.max_properties,
   checkDepReq o.dependent_required,
   checkDepSchemas o.dependent_schemas,
   checkCompObj "allOf" o.all_of,
   checkCompObj "anyOf" o.any_of,
   checkCompObj "oneOf" o.one_of,
   checkNodeObj "not" o.not_,
   checkCondReq o.if_ o.then_ o.else_,
   checkNodeObj "if" o.if_,
   checkNodeObj "then" o.then_,
   checkNodeObj "else" o.else_,
   checkReqProps o.required o.properties]

/-- The validation of the object-specific keywords. -/
def objectValidate (o : ObjectArgs) : Option PyErr :=
  firstSome (objectChecks o)

/-- The object-specific fields a node stores, keyed by canonical spelling, in
assignment (= serialization) order. -/
def objectFields (o : ObjectArgs) : List (String × PyVal) :=
  [("properties", o.properties),
   ("patternProperties", o.pattern_properties),
   ("additionalProperties", o.additional_properties),
   ("unevaluatedProperties", o.unevaluated_properties),
   ("required", o.required),
   ("propertyNames", o.property_names),
   ("minProperties", o.min_properties),
   ("maxProperties", o.max_properties),
   ("dependentRequired", o.dependent_required),
   ("dependentSchemas", o.dependent_schemas),
   ("allOf", o.all_of),
   ("anyOf", o.any_of),
   ("oneOf", o.one_of),
   ("not", o.not_),
   ("if", o.if_),
   ("then", o.then_),
   ("else", o.else_)]

/-- `ObjectSchema(...)`: the base validation runs first, then the object
checks. -/
def mkObjectSchema (o : ObjectArgs) : Except PyErr PyVal :=
  match baseValidate o.toBaseArgs with
  | Option.some e => Except.error e
  | Option.none =>
    match objectValidate o with
    | Option.some e => Except.error e
    | Option.none =>
      Except.ok (PyVal.schemaObj SchemaKind.object (baseFields o.toBaseArgs) (objectFields o))

/-!  ### Serialization

`to_dict` emits, in storage order, one entry per field that is not `None`,
then (for the subclasses) the fixed `type` entry between the base fields and
the subclass fields, exactly as `super().to_dict()` followed by
`result["type"] = ...` does.  Each keyword's value is emitted the way its
`to_dict` branch does: raw, recursively serialized, mapped over a list, or
mapped over a dict's values (conditionally for `definitions`/`$defs`, whose
values may be raw). -/

/-- The `type` entry a subclass adds after the base fields. -/
def typeEntries : SchemaKind → List (PyVal × PyVal)
  | SchemaKind.base => []
  | SchemaKind.array => [(PyVal.str "type", PyVal.str "array")]
  | SchemaKind.object => [(PyVal.str "type", PyVal.str "object")]

/-- Keywords whose value is a single node serialized recursively. -/
def isNodeKw (k : String) : Bool :=
  k == "contains" || k == "not" || k == "if" || k == "then" || k == "else"
    || k == "propertyNames"

/-- Keywords whose value is a list of nodes, each serialized. -/
def isNodeListKw (k : String) : Bool :=
  k == "prefixItems" || k == "allOf" || k == "anyOf" || k == "oneOf"

/-- Keywords whose value is a dict with every value serialized. -/
def isNodeMapKw (k : String) : Bool :=
  k == "properties" || k == "patternProperties" || k == "dependentSchemas"

/-- Keywords whose value is a node or a boolean: booleans pass through,
nodes are serialized. -/
def isNodeOrBoolKw (k : String) : Bool :=
  k == "additionalProperties" || k == "unevaluatedProperties" || k == "unevaluatedItems"

/-- Keywords whose dict values are serialized only when they are nodes
(`definitions`/`$defs` may hold raw values). -/
def isDefsKw (k : String) : Bool :=
  k == "definitions" || k == "$defs"

mutual

/-- The fields a node emits: one entry per non-`None` field, in order. -/
def serFields : List (String × PyVal) → List (PyVal × PyVal)
  | [] => []
  | (k, v) :: rest =>
    if isNoneB v then serFields rest
    else (PyVal.str k, serVal k v) :: serFields rest

/-- One keyword's emitted value (see the section comment). -/
def serVal (k : String) (v : PyVal) : PyVal :=
  if k == "items" then
    match v with
    | PyVal.list xs => PyVal.list (serList xs)
    | PyVal.schemaObj kk b e => PyVal.dict (serFields b ++ typeEntries kk ++ serFields e)
    | x => x
  else if isNodeKw k then
    match v with
    | PyVal.schemaObj kk b e => PyVal.dict (serFields b ++ typeEntries kk ++ serFields e)
    | x => x
  else if isNodeListKw k then
    match v with
    | PyVal.list xs => PyVal.list (serList xs)
    | x => x
  else if isNodeMapKw k then
    match v with
    | PyVal.dict es => PyVal.dict (serMapEntries es)
    | x => x
  else if isNodeOrBoolKw k then
    match v with
    | PyVal.bool b => PyVal.bool b
    | PyVal.schemaObj kk b e => PyVal.dict (serFields b ++ typeEntries kk ++ serFields e)
    | x => x
  else if isDefsKw k then
    match v with
    | PyVal.dict es => PyVal.dict (serDefsEntries es)
    | x => x
  else v

/-- A list of nodes, each serialized (non-nodes pass through; validated
lists hold nodes only). -/
def serList : List PyVal → List PyVal
  | [] => []
  | PyVal.schemaObj kk b e :: xs =>
    PyVal.dict (serFields b ++ typeEntries kk ++ serFields e) :: serList xs
  | x :: xs => x :: serList xs

/-- Dict entries with every value serialized (`properties` and friends). -/
def serMapEntries : List (PyVal × PyVal) → List (PyVal × PyVal)
  | [] => []
  | (k, PyVal.schemaObj kk b e) :: rest =>
    (k, PyVal.dict (serFields b ++ typeEntries kk ++ serFields e)) :: serMapEntries rest
  | (k, v) :: rest => (k, v) :: serMapEntries rest

/-- Dict entries serialized only when the value is a node
(`definitions`/`$defs`). -/
def serDefsEntries : List (PyVal × PyVal) → List (PyVal × PyVal)
  | [] => []
  | (k, PyVal.schemaObj kk b e) :: rest =>
    (k, PyVal.dict (serFields b ++ typeEntries kk ++ serFields e)) :: serDefsEntries rest
  | (k, v) :: rest => (k, v) :: serDefsEntries rest

end

/-- `node.to_dict()`: the ordered mapping a node serializes to (base fields,
then the subclass's `type` entry and subclass fields).  On non-node values it
is the identity (never reached from a validated tree). -/
def to_dict : PyVal → PyVal
  | PyVal.schemaObj k b e => PyVal.dict (serFields b ++ typeEntries k ++ serFields e)
  | v => v

example : to_dict (PyVal.schemaObj SchemaKind.array (baseFields {}) (arrayFields {}))
    = PyVal.dict [(PyVal.str "type", PyVal.str "array")] := rfl
example : to_dict (PyVal.schemaObj SchemaKind.base (baseFields { title := PyVal.str "t" }) [])
    = PyVal.dict [(PyVal.str "title", PyVal.str "t")] := rfl

/-!  ### Statement helpers -/

/-- Construction succeeded. -/
def isOkE : Except PyErr PyVal → Bool
  | Except.ok _ => true
  | Except.error _ => false

/-- Construction failed. -/
def isErrE : Except PyErr PyVal → Bool
  | Except.ok _ => false
  | Except.error _ => true

/-- Construction failed with a `ValueError` (the ConstraintViolation
kind). -/
def isValueErrE : Except PyErr PyVal → Bool
  | Except.error (PyErr.valueError _) => true
  | _ => false

/-- Construction failed with a `TypeError` (the ShapeError kind). -/
def isTypeErrE : Except PyErr PyVal → Bool
  | Except.error (PyErr.typeError _) => true
  | _ => false

/-- The canonical spellings of the fields that are set (not `None`), in
field order: the keys a node is expected to serialize. -/
def presentKeys : List (String × PyVal) → List String
  | [] => []
  | (k, v) :: rest => if isNoneB v then presentKeys rest else k :: presentKeys rest

/-- The string keys of a dict's entries, in order. -/
def keyNamesOf : List (PyVal × PyVal) → List String
  | [] => []
  | (PyVal.str s, _) :: rest => s :: keyNamesOf rest
  | _ :: rest => keyNamesOf rest

/-- The string keys of a serialized node. -/
def dictKeyNames : PyVal → List String
  | PyVal.dict es => keyNamesOf es
  | _ => []

/-- The string keys of a dict-of-nodes argument, in order (used to state the
`required ⊆ properties` claims). -/
def strKeysOf : List (PyVal × PyVal) → List String
  | [] => []
  | (k, _) :: rest => asStr k :: strKeysOf rest

/-- Every entry of a `properties` argument is valid: a non-blank string key
and a node value. -/
def propsEntriesOK (es : List (PyVal × PyVal)) : Bool :=
  es.all (fun e => isStr e.1 && !(pyBlankStr (asStr e.1)) && isSchemaInst e.2)

/-- Every member of a `required` argument is valid: a non-blank string. -/
def reqNamesOK (xs : List PyVal) : Bool :=
  xs.all (fun x => isStr x && !(pyBlankStr (asStr x)))

/-!  ### Generic lemmas -/

/-- Fail-fast: if any check in the list reports an error, the whole
validation does (the first such check wins, but some check does). -/
theorem firstSome_isSome_of_mem {l : List (Option PyErr)} {o : Option PyErr}
    (hmem : o ∈ l) (ho : o.isSome) : (firstSome l).isSome := by
  induction l with
  | nil => cases hmem
  | cons hd tl ih =>
    cases hmem with
    | head =>
      cases o with
      | none => simp at ho
      | some e => simp [firstSome]
    | tail _ hmem' =>
      cases hd with
      | none => simpa [firstSome] using ih hmem'
      | some e => simp [firstSome]

/-- A validation passes exactly when every check passes. -/
theorem firstSome_eq_none_iff {l : List (Option PyErr)} :
    firstSome l = Option.none ↔ ∀ o ∈ l, o = Option.none := by
  induction l with
  | nil => simp [firstSome]
  | cons hd tl ih =>
    cases hd with
    | none => simpa [firstSome] using ih
    | some e => simp [firstSome]

/-- The serializer emits exactly the set fields' keys, in order. -/
theorem keyNamesOf_serFields (l : List (String × PyVal)) :
    keyNamesOf (serFields l) = presentKeys l := by
  induction l with
  | nil => simp [serFields, presentKeys, keyNamesOf]
  | cons hd tl ih =>
    obtain ⟨k, v⟩ := hd
    by_cases h : isNoneB v = true
    · simp [serFields, presentKeys, h, ih]
    · simp only [Bool.not_eq_true] at h
      simp [serFields, presentKeys, h, ih, keyNamesOf]

/-- Keys distribute over appended entry lists. -/
theorem keyNamesOf_append (l1 l2 : List (PyVal × PyVal)) :
    keyNamesOf (l1 ++ l2) = keyNamesOf l1 ++ keyNamesOf l2 := by
  induction l1 with
  | nil => simp [keyNamesOf]
  | cons hd tl ih =>
    obtain ⟨k, v⟩ := hd
    cases k <;> simp [keyNamesOf, ih]

/-!  ### The valid-URI-reference safety lemma

A syntactically valid URI-reference never makes `urlparse` raise: the only
raise condition is mismatched square brackets in the authority, and a valid
authority has either a matched bracket pair (IP-literal) or no brackets at
all. -/

/-- A list all of whose characters satisfy a class avoids any character the
class rejects. -/
theorem contains_false_of_all {l : List Char} {p : Char → Bool} {c : Char}
    (h : l.all p = true) (hc : p c = false) : l.contains c = false := by
  have hm : c ∉ l := by
    intro hmem
    have := List.all_eq_true.mp h c hmem
    rw [hc] at this
    exact Bool.false_ne_true this
  simp [List.contains, hm]

/-- The head of a non-empty `dropWhile` result fails the predicate. -/
theorem dropWhile_head_false {q : Char → Bool} {c : Char} {t : List Char} :
    ∀ {l : List Char}, l.dropWhile q = c :: t → q c = false := by
  intro l
  induction l with
  | nil => intro h; simp [List.dropWhile] at h
  | cons hd tl ih =>
    intro h
    rw [List.dropWhile_cons] at h
    by_cases hq : q hd = true
    · rw [if_pos hq] at h; exact ih h
    · rw [if_neg hq] at h
      cases h
      simpa using hq

/-- A well-formed bracketed host contains its closing bracket. -/
theorem bracketHost_closes {rest : List Char} (h : bracketHost rest = true) :
    (']' : Char) ∈ rest := by
  unfold bracketHost at h
  split at h
  · next tail heq =>
    have hmem : (']' : Char) ∈ rest.dropWhile (fun c => !(c == ']')) := by
      rw [heq]; exact List.mem_cons_self _ _
    exact (List.dropWhile_sublist _).mem hmem
  · exact absurd h (by simp)

/-- A well-formed host has `[` exactly when it has `]`. -/
theorem hostportOK_brackets {hp : List Char} (h : hostportOK hp = true) :
    hp.contains '[' = hp.contains ']' := by
  unfold hostportOK at h
  by_cases hh : hp.head? = Option.some '['
  · rw [if_pos hh] at h
    rcases hp with _ | ⟨c, cs⟩
    · simp at hh
    · simp only [List.head?_cons, Option.some.injEq] at hh
      subst hh
      have h1 : (']' : Char) ∈ cs := bracketHost_closes (by simpa using h)
      have h2 : (('[' : Char) :: cs).contains '[' = true := by
        simp [List.contains]
      have h3 : (('[' : Char) :: cs).contains ']' = true := by
        simp [List.contains, h1]
      rw [h2, h3]
  · rw [if_neg hh] at h
    unfold regNameHost at h
    simp only [Bool.and_eq_true, Bool.not_eq_true'] at h
    rw [h.1.1.1, h.1.1.2]

/-- A well-formed authority has `[` exactly when it has `]`. -/
theorem validAuthority_brackets {a : List Char} (h : validAuthority a = true) :
    a.contains '[' = a.contains ']' := by
  unfold validAuthority at h
  split at h
  · exact hostportOK_brackets h
  · next ui c t heq =>
    rw [Bool.and_eq_true] at h
    obtain ⟨hui, hhp⟩ := h
    have hc : c = '@' := by
      have hq := dropWhile_head_false (q := fun x : Char => !(x == '@')) (c := c)
        (t := t) (l := a) (by simpa [splitFirst] using congrArg Prod.snd heq)
      simpa using hq
    have hsplit : a = ui ++ c :: t := by
      have h1 := congrArg Prod.fst heq
      have h2 := congrArg Prod.snd heq
      simp only [splitFirst] at h1 h2
      rw [← List.takeWhile_append_dropWhile (fun x : Char => !(x == '@')) a, h1, h2]
    subst hc hsplit
    have hbr := hostportOK_brackets hhp
    have huil : ui.contains '[' = false :=
      contains_false_of_all hui (by decide)
    have huir : ui.contains ']' = false :=
      contains_false_of_all hui (by decide)
    cases h1 : t.contains '[' with
    | true =>
      have h2 : t.contains ']' = true := by rw [← hbr, h1]
      simp [List.contains] at h1 h2 ⊢
      simp [h1, h2]
    | false =>
      have h2 : t.contains ']' = false := by rw [← hbr, h1]
      simp [List.contains] at h1 h2 huil huir ⊢
      simp [h1, h2, huil, huir]

/-- A syntactically valid URI-reference never makes `urlparse` raise. -/
theorem urlparseRaises_false_of_valid {s : String}
    (h : isValidURIReference s = true) : urlparseRaises s = false := by
  unfold isValidURIReference at h
  rw [Bool.and_eq_true] at h
  obtain ⟨hkeep, hcore⟩ := h
  have hfilter : s.data.filter urlKeepChar = s.data :=
    List.filter_eq_self.mpr (fun a ha => List.all_eq_true.mp hkeep a ha)
  unfold urlparseRaises
  rw [hfilter]
  unfold isValidURIRefCore at hcore
  cases hss : startsSlashSlash (dropScheme s.data) with
  | false => simp [hss]
  | true =>
    rw [if_pos hss] at hcore
    rw [if_pos hss]
    rw [Bool.and_eq_true] at hcore
    have hb := validAuthority_brackets hcore.1
    simp [List.contains] at hb
    simp [List.contains, hb]

/-- The code's URI-reference check accepts every syntactically valid
URI-reference. -/
theorem py_uri_reference_of_valid {s : String}
    (h : isValidURIReference s = true) : py_is_valid_uri_reference s = true := by
  unfold py_is_valid_uri_reference
  rw [urlparseRaises_false_of_valid h]
  rfl

/-- The code's URI check accepts every syntactically valid URI-reference
(hence every valid URI). -/
theorem py_uri_of_valid {s : String}
    (h : isValidURIReference s = true) : py_is_valid_uri s = true := by
  unfold py_is_valid_uri
  rw [urlparseRaises_false_of_valid h]
  rfl

/-!  ### Node-key helper -/

/-- The keys a node serializes: base present keys, the subclass's `type`
key, the subclass's present keys. -/
theorem dictKeyNames_node (k : SchemaKind) (b e : List (String × PyVal)) :
    dictKeyNames (to_dict (PyVal.schemaObj k b e))
      = presentKeys b ++ keyNamesOf (typeEntries k) ++ presentKeys e := by
  simp [to_dict, dictKeyNames, keyNamesOf_append, keyNamesOf_serFields]

/-!  ### Claims -/

/-- C10: a `Schema` constructed with every keyword argument absent succeeds,
and serializing it yields exactly the empty mapping — no `type` key, no
default entries. -/
theorem C10_empty_base_serializes_empty :
    mkSchema {} = Except.ok (PyVal.schemaObj SchemaKind.base (baseFields {}) [])
      ∧ to_dict (PyVal.schemaObj SchemaKind.base (baseFields {}) []) = PyVal.dict []
      ∧ presentKeys (baseFields {}) = [] :=
  ⟨rfl, rfl, rfl⟩

/-- C9: a boolean passed where an integer bound is expected passes the
integer kind-check (`bool` is a subclass of `int`), construction succeeds
whenever the numeric constraints hold with `True` read as 1 and `False` as
0, and the boolean is emitted unchanged as the bound's serialized value. -/
theorem C9_bool_accepted_as_integer_bound :
    isIntPy (PyVal.bool true) = true
    ∧ isIntPy (PyVal.bool false) = true
    ∧ mkArraySchema { min_items := PyVal.bool true }
        = Except.ok (PyVal.schemaObj SchemaKind.array (baseFields {})
            (arrayFields { min_items := PyVal.bool true }))
    ∧ to_dict (PyVal.schemaObj SchemaKind.array (baseFields {})
          (arrayFields { min_items := PyVal.bool true }))
        = PyVal.dict [(PyVal.str "type", PyVal.str "array"),
            (PyVal.str "minItems", PyVal.bool true)]
    ∧ mkObjectSchema { max_properties := PyVal.bool false }
        = Except.ok (PyVal.schemaObj SchemaKind.object (baseFields {})
            (objectFields { max_properties := PyVal.bool false }))
    ∧ to_dict (PyVal.schemaObj SchemaKind.object (baseFields {})
          (objectFields { max_properties := PyVal.bool false }))
        = PyVal.dict [(PyVal.str "type", PyVal.str "object"),
            (PyVal.str "maxProperties", PyVal.bool false)]
    ∧ mkArraySchema { min_items := PyVal.bool true, max_items := PyVal.bool false }
        = Except.error (PyErr.valueError "minItems cannot be greater than maxItems")
    ∧ mkArraySchema { min_items := PyVal.bool true, max_items := PyVal.int 5 }
        = Except.ok (PyVal.schemaObj SchemaKind.array (baseFields {})
            (arrayFields { min_items := PyVal.bool true, max_items := PyVal.int 5 }))
    ∧ isOkE (mkArraySchema
        { min_items := PyVal.bool true, max_items := PyVal.bool true }) = true
    ∧ isOkE (mkArraySchema
        { min_items := PyVal.bool false, max_items := PyVal.bool false }) = true
    ∧ isOkE (mkArraySchema
        { min_items := PyVal.bool false, max_items := PyVal.bool true }) = true :=
  ⟨rfl, rfl, rfl, rfl, rfl, rfl, rfl, rfl, rfl, rfl, rfl⟩

/-- C3: the `$id`/`$schema`/`$ref` URI validity checks are dead code —
`"http://exa mple.com"` is non-blank and not a syntactically valid URI or
URI-reference (a space in the host), yet `_is_valid_uri` and
`_is_valid_uri_reference` return `True` (`bool(urlparse(...))` is truthy for
every parse that does not raise) and construction succeeds for every one of
the five keywords. -/
theorem C3_uri_check_is_dead_code :
    pyBlankStr "http://exa mple.com" = false
    ∧ isValidURIReference "http://exa mple.com" = false
    ∧ py_is_valid_uri "http://exa mple.com" = true
    ∧ py_is_valid_uri_reference "http://exa mple.com" = true
    ∧ isOkE (mkSchema { id_ := PyVal.str "http://exa mple.com" }) = true
    ∧ isOkE (mkSchema { schema := PyVal.str "http://exa mple.com" }) = true
    ∧ isOkE (mkSchema { ref := PyVal.str "http://exa mple.com" }) = true
    ∧ isOkE (mkSchema { dynamic_ref := PyVal.str "http://exa mple.com" }) = true
    ∧ isOkE (mkSchema { recursive_ref := PyVal.str "http://exa mple.com" }) = true :=
  ⟨rfl, rfl, rfl, rfl, rfl, rfl, rfl, rfl, rfl⟩

/-- C1: serializing a validly constructed node yields exactly the canonical
keys of the keywords supplied as non-absent (in storage order), plus the
fixed `type` key for array/object nodes; serialization is a pure function,
so serializing twice yields identical structures; and an `ArraySchema` with
no keywords set serializes to exactly `{"type": "array"}`. -/
theorem C1_serialization_exact_keys :
    (∀ (v : PyVal), to_dict v = to_dict v)
    ∧ (∀ (b : BaseArgs) (s : PyVal), mkSchema b = Except.ok s →
        dictKeyNames (to_dict s) = presentKeys (baseFields b))
    ∧ (∀ (a : ArrayArgs) (s : PyVal), mkArraySchema a = Except.ok s →
        dictKeyNames (to_dict s)
          = presentKeys (baseFields a.toBaseArgs) ++ "type" :: presentKeys (arrayFields a))
    ∧ (∀ (o : ObjectArgs) (s : PyVal), mkObjectSchema o = Except.ok s →
        dictKeyNames (to_dict s)
          = presentKeys (baseFields o.toBaseArgs) ++ "type" :: presentKeys (objectFields o))
    ∧ mkArraySchema {}
        = Except.ok (PyVal.schemaObj SchemaKind.array (baseFields {}) (arrayFields {}))
    ∧ to_dict (PyVal.schemaObj SchemaKind.array (baseFields {}) (arrayFields {}))
        = PyVal.dict [(PyVal.str "type", PyVal.str "array")] := by
  refine ⟨fun v => rfl, ?_, ?_, ?_, rfl, rfl⟩
  · intro b s h
    unfold mkSchema at h
    cases hv : baseValidate b with
    | some e => rw [hv] at h; exact absurd h (by simp)
    | none =>
      rw [hv] at h
      cases h
      rw [dictKeyNames_node]
      simp [typeEntries, keyNamesOf, presentKeys]
  · intro a s h
    unfold mkArraySchema at h
    cases hv : baseValidate a.toBaseArgs with
    | some e => rw [hv] at h; exact absurd h (by simp)
    | none =>
      rw [hv] at h
      cases hv2 : arrayValidate a with
      | some e => rw [hv2] at h; exact absurd h (by simp)
      | none =>
        rw [hv2] at h
        cases h
        rw [dictKeyNames_node]
        simp [typeEntries, keyNamesOf]
  · intro o s h
    unfold mkObjectSchema at h
    cases hv : baseValidate o.toBaseArgs with
    | some e => rw [hv] at h; exact absurd h (by simp)
    | none =>
      rw [hv] at h
      cases hv2 : objectValidate o with
      | some e => rw [hv2] at h; exact absurd h (by simp)
      | none =>
        rw [hv2] at h
        cases h
        rw [dictKeyNames_node]
        simp [typeEntries, keyNamesOf]

/-- C1 witness: the theorem applied to a concrete base node (a set `title`)
and, through its closed conjuncts, to the empty array node. -/
theorem C1_serialization_exact_keys_witness :
    dictKeyNames (to_dict (PyVal.schemaObj SchemaKind.base
        (baseFields { title := PyVal.str "t" }) []))
      = presentKeys (baseFields { title := PyVal.str "t" }) :=
  C1_serialization_exact_keys.2.1 { title := PyVal.str "t" } _ rfl

/-!  ### Reference-keyword helpers for C2 -/

/-- Two reference keywords set at once make the exclusivity check fire. -/
theorem refExcl_isSome {b : BaseArgs}
    (hcond : (isNoneB b.ref = false ∧ isNoneB b.dynamic_ref = false)
      ∨ (isNoneB b.ref = false ∧ isNoneB b.recursive_ref = false)
      ∨ (isNoneB b.dynamic_ref = false ∧ isNoneB b.recursive_ref = false)) :
    (baseValidate b).isSome := by
  have hsome : (checkRefExcl b.ref b.dynamic_ref b.recursive_ref).isSome := by
    unfold checkRefExcl
    rcases hcond with ⟨h1, h2⟩ | ⟨h1, h2⟩ | ⟨h1, h2⟩ <;> simp [h1, h2]
  exact firstSome_isSome_of_mem (l := baseChecks b) (by simp [baseChecks]) hsome

/-- Setting `$ref` to a non-blank valid URI-reference preserves a passing
base validation (the other two reference keywords being absent). -/
theorem baseValidate_set_ref (b : BaseArgs) (s : String)
    (hdr : b.dynamic_ref = PyVal.none) (hrr : b.recursive_ref = PyVal.none)
    (hblank : pyBlankStr s = false) (hvalid : isValidURIReference s = true)
    (h0 : baseValidate { b with ref := PyVal.none } = Option.none) :
    baseValidate { b with ref := PyVal.str s } = Option.none := by
  have hall := firstSome_eq_none_iff.mp h0
  apply firstSome_eq_none_iff.mpr
  intro o ho
  simp only [baseChecks, List.mem_cons, List.not_mem_nil, or_false] at ho
  rcases ho with h | h | h | h | h | h | h | h | h | h | h | h | h | h | h | h | h <;> subst h
  · exact hall _ (by simp [baseChecks])
  · exact hall _ (by simp [baseChecks])
  · show checkRefExcl (PyVal.str s) b.dynamic_ref b.recursive_ref = Option.none
    rw [hdr, hrr]
    rfl
  · show checkUriRefKw "$ref" (PyVal.str s) = Option.none
    simp [checkUriRefKw, isNoneB, isStr, asStr, hblank, py_uri_reference_of_valid hvalid]
  · show checkUriRefKw "$dynamicRef" b.dynamic_ref = Option.none
    rw [hdr]
    rfl
  · show checkUriRefKw "$recursiveRef" b.recursive_ref = Option.none
    rw [hrr]
    rfl
  · exact hall _ (by simp [baseChecks])
  · exact hall _ (by simp [baseChecks])
  · exact hall _ (by simp [baseChecks])
  · exact hall _ (by simp [baseChecks])
  · exact hall _ (by simp [baseChecks])
  · exact hall _ (by simp [baseChecks])
  · exact hall _ (by simp [baseChecks])
  · exact hall _ (by simp [baseChecks])
  · exact hall _ (by simp [baseChecks])
  · exact hall _ (by simp [baseChecks])
  · exact hall _ (by simp [baseChecks])

/-- Setting `$dynamicRef` to a non-blank valid URI-reference preserves a
passing base validation (the other two reference keywords being absent). -/
theorem baseValidate_set_dynref (b : BaseArgs) (s : String)
    (hr : b.ref = PyVal.none) (hrr : b.recursive_ref = PyVal.none)
    (hblank : pyBlankStr s = false) (hvalid : isValidURIReference s = true)
    (h0 : baseValidate { b with dynamic_ref := PyVal.none } = Option.none) :
    baseValidate { b with dynamic_ref := PyVal.str s } = Option.none := by
  have hall := firstSome_eq_none_iff.mp h0
  apply firstSome_eq_none_iff.mpr
  intro o ho
  simp only [baseChecks, List.mem_cons, List.not_mem_nil, or_false] at ho
  rcases ho with h | h | h | h | h | h | h | h | h | h | h | h | h | h | h | h | h <;> subst h
  · exact hall _ (by simp [baseChecks])
  · exact hall _ (by simp [baseChecks])
  · show checkRefExcl b.ref (PyVal.str s) b.recursive_ref = Option.none
    rw [hr, hrr]
    rfl
  · show checkUriRefKw "$ref" b.ref = Option.none
    rw [hr]
    rfl
  · show checkUriRefKw "$dynamicRef" (PyVal.str s) = Option.none
    simp [checkUriRefKw, isNoneB, isStr, asStr, hblank, py_uri_reference_of_valid hvalid]
  · show checkUriRefKw "$recursiveRef" b.recursive_ref = Option.none
    rw [hrr]
    rfl
  · exact hall _ (by simp [baseChecks])
  · exact hall _ (by simp [baseChecks])
  · exact hall _ (by simp [baseChecks])
  · exact hall _ (by simp [baseChecks])
  · exact hall _ (by simp [baseChecks])
  · exact hall _ (by simp [baseChecks])
  · exact hall _ (by simp [baseChecks])
  · exact hall _ (by simp [baseChecks])
  · exact hall _ (by simp [baseChecks])
  · exact hall _ (by simp [baseChecks])
  · exact hall _ (by simp [baseChecks])

/-- Setting `$recursiveRef` to a non-blank valid URI-reference preserves a
passing base validation (the other two reference keywords being absent). -/
theorem baseValidate_set_recref (b : BaseArgs) (s : String)
    (hr : b.ref = PyVal.none) (hdr : b.dynamic_ref = PyVal.none)
    (hblank : pyBlankStr s = false) (hvalid : isValidURIReference s = true)
    (h0 : baseValidate { b with recursive_ref := PyVal.none } = Option.none) :
    baseValidate { b with recursive_ref := PyVal.str s } = Option.none := by
  have hall := firstSome_eq_none_iff.mp h0
  apply firstSome_eq_none_iff.mpr
  intro o ho
  simp only [baseChecks, List.mem_cons, List.not_mem_nil, or_false] at ho
  rcases ho with h | h | h | h | h | h | h | h | h | h | h | h | h | h | h | h | h <;> subst h
  · exact hall _ (by simp [baseChecks])
  · exact hall _ (by simp [baseChecks])
  · show checkRefExcl b.ref b.dynamic_ref (PyVal.str s) = Option.none
    rw [hr, hdr]
    rfl
  · show checkUriRefKw "$ref" b.ref = Option.none
    rw [hr]
    rfl
  · show checkUriRefKw "$dynamicRef" b.dynamic_ref = Option.none
    rw [hdr]
    rfl
  · show checkUriRefKw "$recursiveRef" (PyVal.str s) = Option.none
    simp [checkUriRefKw, isNoneB, isStr, asStr, hblank, py_uri_reference_of_valid hvalid]
  · exact hall _ (by simp [baseChecks])
  · exact hall _ (by simp [baseChecks])
  · exact hall _ (by simp [baseChecks])
  · exact hall _ (by simp [baseChecks])
  · exact hall _ (by simp [baseChecks])
  · exact hall _ (by simp [baseChecks])
  · exact hall _ (by simp [baseChecks])
  · exact hall _ (by simp [baseChecks])
  · exact hall _ (by simp [baseChecks])
  · exact hall _ (by simp [baseChecks])
  · exact hall _ (by simp [baseChecks])

/-- A passing `mkSchema` means a passing base validation. -/
theorem baseValidate_none_of_ok {b : BaseArgs}
    (h : isOkE (mkSchema b) = true) : baseValidate b = Option.none := by
  unfold mkSchema at h
  cases hv : baseValidate b with
  | some e => rw [hv] at h; exact absurd h (by simp [isOkE])
  | none => rfl

/-- A passing `mkArraySchema` means passing base and array validations. -/
theorem arrayValidate_none_of_ok {a : ArrayArgs}
    (h : isOkE (mkArraySchema a) = true) :
    baseValidate a.toBaseArgs = Option.none ∧ arrayValidate a = Option.none := by
  unfold mkArraySchema at h
  cases hv : baseValidate a.toBaseArgs with
  | some e => rw [hv] at h; exact absurd h (by simp [isOkE])
  | none =>
    rw [hv] at h
    cases hv2 : arrayValidate a with
    | some e => rw [hv2] at h; exact absurd h (by simp [isOkE])
    | none => exact ⟨rfl, rfl⟩

/-- A passing `mkObjectSchema` means passing base and object validations. -/
theorem objectValidate_none_of_ok {o : ObjectArgs}
    (h : isOkE (mkObjectSchema o) = true) :
    baseValidate o.toBaseArgs = Option.none ∧ objectValidate o = Option.none := by
  unfold mkObjectSchema at h
  cases hv : baseValidate o.toBaseArgs with
  | some e => rw [hv] at h; exact absurd h (by simp [isOkE])
  | none =>
    rw [hv] at h
    cases hv2 : objectValidate o with
    | some e => rw [hv2] at h; exact absurd h (by simp [isOkE])
    | none => exact ⟨rfl, rfl⟩

/-- C2: supplying any two of `$ref`/`$dynamicRef`/`$recursiveRef` (both
non-None) fails construction for every constructor and every remaining
argument; and, the other arguments being valid (the same call with the
reference keyword removed succeeds), supplying exactly one of them as a
non-blank syntactically valid URI-reference succeeds, again for every
constructor. -/
theorem C2_reference_exclusivity :
    (∀ (b : BaseArgs),
        ((isNoneB b.ref = false ∧ isNoneB b.dynamic_ref = false)
          ∨ (isNoneB b.ref = false ∧ isNoneB b.recursive_ref = false)
          ∨ (isNoneB b.dynamic_ref = false ∧ isNoneB b.recursive_ref = false)) →
        isErrE (mkSchema b) = true)
    ∧ (∀ (a : ArrayArgs),
        ((isNoneB a.ref = false ∧ isNoneB a.dynamic_ref = false)
          ∨ (isNoneB a.ref = false ∧ isNoneB a.recursive_ref = false)
          ∨ (isNoneB a.dynamic_ref = false ∧ isNoneB a.recursive_ref = false)) →
        isErrE (mkArraySchema a) = true)
    ∧ (∀ (o : ObjectArgs),
        ((isNoneB o.ref = false ∧ isNoneB o.dynamic_ref = false)
          ∨ (isNoneB o.ref = false ∧ isNoneB o.recursive_ref = false)
          ∨ (isNoneB o.dynamic_ref = false ∧ isNoneB o.recursive_ref = false)) →
        isErrE (mkObjectSchema o) = true)
    ∧ (∀ (s : String) (b : BaseArgs), pyBlankStr s = false → isValidURIReference s = true →
        b.dynamic_ref = PyVal.none → b.recursive_ref = PyVal.none →
        isOkE (mkSchema { b with ref := PyVal.none }) = true →
        isOkE (mkSchema { b with ref := PyVal.str s }) = true)
    ∧ (∀ (s : String) (a : ArrayArgs), pyBlankStr s = false → isValidURIReference s = true →
        a.dynamic_ref = PyVal.none → a.recursive_ref = PyVal.none →
        isOkE (mkArraySchema { a with ref := PyVal.none }) = true →
        isOkE (mkArraySchema { a with ref := PyVal.str s }) = true)
    ∧ (∀ (s : String) (o : ObjectArgs), pyBlankStr s = false → isValidURIReference s = true →
        o.dynamic_ref = PyVal.none → o.recursive_ref = PyVal.none →
        isOkE (mkObjectSchema { o with ref := PyVal.none }) = true →
        isOkE (mkObjectSchema { o with ref := PyVal.str s }) = true)
    ∧ (∀ (s : String) (b : BaseArgs), pyBlankStr s = false → isValidURIReference s = true →
        b.ref = PyVal.none → b.recursive_ref = PyVal.none →
        isOkE (mkSchema { b with dynamic_ref := PyVal.none }) = true →
        isOkE (mkSchema { b with dynamic_ref := PyVal.str s }) = true)
    ∧ (∀ (s : String) (a : ArrayArgs), pyBlankStr s = false → isValidURIReference s = true →
        a.ref = PyVal.none → a.recursive_ref = PyVal.none →
        isOkE (mkArraySchema { a with dynamic_ref := PyVal.none }) = true →
        isOkE (mkArraySchema { a with dynamic_ref := PyVal.str s }) = true)
    ∧ (∀ (s : String) (o : ObjectArgs), pyBlankStr s = false → isValidURIReference s = true →
        o.ref = PyVal.none → o.recursive_ref = PyVal.none →
        isOkE (mkObjectSchema { o with dynamic_ref := PyVal.none }) = true →
        isOkE (mkObjectSchema { o with dynamic_ref := PyVal.str s }) = true)
    ∧ (∀ (s : String) (b : BaseArgs), pyBlankStr s = false → isValidURIReference s = true →
        b.ref = PyVal.none → b.dynamic_ref = PyVal.none →
        isOkE (mkSchema { b with recursive_ref := PyVal.none }) = true →
        isOkE (mkSchema { b with recursive_ref := PyVal.str s }) = true)
    ∧ (∀ (s : String) (a : ArrayArgs), pyBlankStr s = false → isValidURIReference s = true →
        a.ref = PyVal.none → a.dynamic_ref = PyVal.none →
        isOkE (mkArraySchema { a with recursive_ref := PyVal.none }) = true →
        isOkE (mkArraySchema { a with recursive_ref := PyVal.str s }) = true)
    ∧ (∀ (s : String) (o : ObjectArgs), pyBlankStr s = false → isValidURIReference s = true →
        o.ref = PyVal.none → o.dynamic_ref = PyVal.none →
        isOkE (mkObjectSchema { o with recursive_ref := PyVal.none }) = true →
        isOkE (mkObjectSchema { o with recursive_ref := PyVal.str s }) = true) := by
  refine ⟨?_, ?_, ?_, ?_, ?_, ?_, ?_, ?_, ?_, ?_, ?_, ?_⟩
  · intro b hc
    have hs := refExcl_isSome (b := b) hc
    unfold mkSchema
    cases hv : baseValidate b with
    | some e => rfl
    | none => rw [hv] at hs; exact absurd hs (by simp)
  · intro a hc
    have hs := refExcl_isSome (b := a.toBaseArgs) hc
    unfold mkArraySchema
    cases hv : baseValidate a.toBaseArgs with
    | some e => rfl
    | none => rw [hv] at hs; exact absurd hs (by simp)
  · intro o hc
    have hs := refExcl_isSome (b := o.toBaseArgs) hc
    unfold mkObjectSchema
    cases hv : baseValidate o.toBaseArgs with
    | some e => rfl
    | none => rw [hv] at hs; exact absurd hs (by simp)
  · intro s b h1 h2 h3 h4 h5
    have h6 : baseValidate { b with ref := PyVal.str s } = Option.none :=
      baseValidate_set_ref b s h3 h4 h1 h2 (baseValidate_none_of_ok h5)
    unfold mkSchema
    rw [h6]
    rfl
  · intro s a h1 h2 h3 h4 h5
    obtain ⟨hb, ha⟩ := arrayValidate_none_of_ok h5
    have h6 : baseValidate ({ a with ref := PyVal.str s } : ArrayArgs).toBaseArgs
        = Option.none := baseValidate_set_ref a.toBaseArgs s h3 h4 h1 h2 hb
    have h7 : arrayValidate ({ a with ref := PyVal.str s } : ArrayArgs) = Option.none := ha
    unfold mkArraySchema
    rw [h6, h7]
    rfl
  · intro s o h1 h2 h3 h4 h5
    obtain ⟨hb, ho⟩ := objectValidate_none_of_ok h5
    have h6 : baseValidate ({ o with ref := PyVal.str s } : ObjectArgs).toBaseArgs
        = Option.none := baseValidate_set_ref o.toBaseArgs s h3 h4 h1 h2 hb
    have h7 : objectValidate ({ o with ref := PyVal.str s } : ObjectArgs) = Option.none := ho
    unfold mkObjectSchema
    rw [h6, h7]
    rfl
  · intro s b h1 h2 h3 h4 h5
    have h6 : baseValidate { b with dynamic_ref := PyVal.str s } = Option.none :=
      baseValidate_set_dynref b s h3 h4 h1 h2 (baseValidate_none_of_ok h5)
    unfold mkSchema
    rw [h6]
    rfl
  · intro s a h1 h2 h3 h4 h5
    obtain ⟨hb, ha⟩ := arrayValidate_none_of_ok h5
    have h6 : baseValidate ({ a with dynamic_ref := PyVal.str s } : ArrayArgs).toBaseArgs
        = Option.none := baseValidate_set_dynref a.toBaseArgs s h3 h4 h1 h2 hb
    have h7 : arrayValidate ({ a with dynamic_ref := PyVal.str s } : ArrayArgs)
        = Option.none := ha
    unfold mkArraySchema
    rw [h6, h7]
    rfl
  · intro s o h1 h2 h3 h4 h5
    obtain ⟨hb, ho⟩ := objectValidate_none_of_ok h5
    have h6 : baseValidate ({ o with dynamic_ref := PyVal.str s } : ObjectArgs).toBaseArgs
        = Option.none := baseValidate_set_dynref o.toBaseArgs s h3 h4 h1 h2 hb
    have h7 : objectValidate ({ o with dynamic_ref := PyVal.str s } : ObjectArgs)
        = Option.none := ho
    unfold mkObjectSchema
    rw [h6, h7]
    rfl
  · intro s b h1 h2 h3 h4 h5
    have h6 : baseValidate { b with recursive_ref := PyVal.str s } = Option.none :=
      baseValidate_set_recref b s h3 h4 h1 h2 (baseValidate_none_of_ok h5)
    unfold mkSchema
    rw [h6]
    rfl
  · intro s a h1 h2 h3 h4 h5
    obtain ⟨hb, ha⟩ := arrayValidate_none_of_ok h5
    have h6 : baseValidate ({ a with recursive_ref := PyVal.str s } : ArrayArgs).toBaseArgs
        = Option.none := baseValidate_set_recref a.toBaseArgs s h3 h4 h1 h2 hb
    have h7 : arrayValidate ({ a with recursive_ref := PyVal.str s } : ArrayArgs)
        = Option.none := ha
    unfold mkArraySchema
    rw [h6, h7]
    rfl
  · intro s o h1 h2 h3 h4 h5
    obtain ⟨hb, ho⟩ := objectValidate_none_of_ok h5
    have h6 : baseValidate ({ o with recursive_ref := PyVal.str s } : ObjectArgs).toBaseArgs
        = Option.none := baseValidate_set_recref o.toBaseArgs s h3 h4 h1 h2 hb
    have h7 : objectValidate ({ o with recursive_ref := PyVal.str s } : ObjectArgs)
        = Option.none := ho
    unfold mkObjectSchema
    rw [h6, h7]
    rfl

/-- C2 witness: two references set fail on a concrete call; a single
`$ref` set to a concrete valid URI-reference succeeds on every
constructor. -/
theorem C2_reference_exclusivity_witness :
    isErrE (mkSchema { ref := PyVal.str "a", dynamic_ref := PyVal.str "b" }) = true
    ∧ isOkE (mkSchema { ({} : BaseArgs) with ref := PyVal.str "https://example.com/a#b" }) = true
    ∧ isOkE (mkArraySchema
        { ({} : ArrayArgs) with dynamic_ref := PyVal.str "other.json#frag" }) = true
    ∧ isOkE (mkObjectSchema { ({} : ObjectArgs) with recursive_ref := PyVal.str "#" }) = true := by
  refine ⟨?_, ?_, ?_, ?_⟩
  · exact C2_reference_exclusivity.1 _ (Or.inl ⟨rfl, rfl⟩)
  · exact C2_reference_exclusivity.2.2.2.1 "https://example.com/a#b" {} rfl (by decide)
      rfl rfl rfl
  · exact C2_reference_exclusivity.2.2.2.2.2.2.2.1 "other.json#frag" {} rfl (by decide)
      rfl rfl rfl
  · exact C2_reference_exclusivity.2.2.2.2.2.2.2.2.2.2.2 "#" {} rfl (by decide)
      rfl rfl rfl

/-- C4 helper: a passing base and array validation give a successful
construction. -/
theorem isOkE_mkArray {a : ArrayArgs} (hb : baseValidate a.toBaseArgs = Option.none)
    (ha : arrayValidate a = Option.none) : isOkE (mkArraySchema a) = true := by
  unfold mkArraySchema
  rw [hb, ha]
  rfl

/-- C4 helper: a passing base and object validation give a successful
construction. -/
theorem isOkE_mkObject {o : ObjectArgs} (hb : baseValidate o.toBaseArgs = Option.none)
    (ho : objectValidate o = Option.none) : isOkE (mkObjectSchema o) = true := by
  unfold mkObjectSchema
  rw [hb, ho]
  rfl

/-- C4 helper: an array validation error of the `ValueError` kind surfaces
as a `ValueError` construction failure. -/
theorem isValueErrE_mkArray {a : ArrayArgs} {m : String}
    (hb : baseValidate a.toBaseArgs = Option.none)
    (ha : arrayValidate a = Option.some (PyErr.valueError m)) :
    isValueErrE (mkArraySchema a) = true := by
  unfold mkArraySchema
  rw [hb, ha]
  rfl

/-- C4 helper: an object validation error of the `ValueError` kind surfaces
as a `ValueError` construction failure. -/
theorem isValueErrE_mkObject {o : ObjectArgs} {m : String}
    (hb : baseValidate o.toBaseArgs = Option.none)
    (ho : objectValidate o = Option.some (PyErr.valueError m)) :
    isValueErrE (mkObjectSchema o) = true := by
  unfold mkObjectSchema
  rw [hb, ho]
  rfl

/-- A schema node is not `None`. -/
theorem isNoneB_false_of_schema {c : PyVal} (h : isSchemaInst c = true) :
    isNoneB c = false := by
  cases c <;> simp_all [isSchemaInst, isNoneB]

/-- C4: for each range pair — `(minItems, maxItems)`, `(minProperties,
maxProperties)`, `(minContains, maxContains)` — construction succeeds for
all non-negative `a ≤ b`, fails with a `ValueError` (ConstraintViolation)
whenever `a > b`, fails with a `ValueError` on any negative value; and
`minContains`/`maxContains` without `contains` fail, while adding any
`contains` node makes them succeed. -/
theorem C4_range_pairs :
    (∀ a b : Int, 0 ≤ a → a ≤ b → isOkE (mkArraySchema
        { min_items := PyVal.int a, max_items := PyVal.int b }) = true)
    ∧ (∀ a b : Int, a > b → isValueErrE (mkArraySchema
        { min_items := PyVal.int a, max_items := PyVal.int b }) = true)
    ∧ (∀ a : Int, a < 0 → isValueErrE (mkArraySchema { min_items := PyVal.int a }) = true)
    ∧ (∀ a : Int, a < 0 → isValueErrE (mkArraySchema { max_items := PyVal.int a }) = true)
    ∧ (∀ a b : Int, 0 ≤ a → a ≤ b → isOkE (mkObjectSchema
        { min_properties := PyVal.int a, max_properties := PyVal.int b }) = true)
    ∧ (∀ a b : Int, a > b → isValueErrE (mkObjectSchema
        { min_properties := PyVal.int a, max_properties := PyVal.int b }) = true)
    ∧ (∀ a : Int, a < 0 → isValueErrE (mkObjectSchema
        { min_properties := PyVal.int a }) = true)
    ∧ (∀ a : Int, a < 0 → isValueErrE (mkObjectSchema
        { max_properties := PyVal.int a }) = true)
    ∧ (∀ (a b : Int) (c : PyVal), isSchemaInst c = true → 0 ≤ a → a ≤ b →
        isOkE (mkArraySchema
          { contains := c, min_contains := PyVal.int a, max_contains := PyVal.int b }) = true)
    ∧ (∀ (a b : Int) (c : PyVal), isSchemaInst c = true → a > b →
        isValueErrE (mkArraySchema
          { contains := c, min_contains := PyVal.int a, max_contains := PyVal.int b }) = true)
    ∧ (∀ a : Int, a < 0 → isValueErrE (mkArraySchema
        { min_contains := PyVal.int a }) = true)
    ∧ (∀ a : Int, a < 0 → isValueErrE (mkArraySchema
        { max_contains := PyVal.int a }) = true)
    ∧ (∀ a : Int, 0 ≤ a → mkArraySchema { min_contains := PyVal.int a }
        = Except.error (PyErr.valueError "minContains requires contains to be specified"))
    ∧ (∀ a : Int, 0 ≤ a → mkArraySchema { max_contains := PyVal.int a }
        = Except.error (PyErr.valueError "maxContains requires contains to be specified"))
    ∧ (∀ (a : Int) (c : PyVal), isSchemaInst c = true → 0 ≤ a →
        isOkE (mkArraySchema { contains := c, min_contains := PyVal.int a }) = true)
    ∧ (∀ (a : Int) (c : PyVal), isSchemaInst c = true → 0 ≤ a →
        isOkE (mkArraySchema { contains := c, max_contains := PyVal.int a }) = true) := by
  refine ⟨?_, ?_, ?_, ?_, ?_, ?_, ?_, ?_, ?_, ?_, ?_, ?_, ?_, ?_, ?_, ?_⟩
  · intro a b h1 h2
    apply isOkE_mkArray
    · rfl
    · simp [arrayValidate, arrayChecks, firstSome, checkItems, checkPrefixItems,
        checkContains, checkIntKw, checkPairKw, checkContainsBound, checkBoolTypeKw,
        checkSchemaBoolKw, checkCompArr, checkNodeArr, checkCondReq, isNoneB, isIntPy,
        toI, not_lt.mpr h1, not_lt.mpr (h1.trans h2), not_lt.mpr h2]
  · intro a b h
    rcases lt_or_le a 0 with hneg | hpos
    · apply isValueErrE_mkArray (m := "minItems must be non-negative")
      · rfl
      · simp [arrayValidate, arrayChecks, firstSome, checkItems, checkPrefixItems,
          checkContains, checkIntKw, isNoneB, isIntPy, toI, hneg]
    · rcases lt_or_le b 0 with hnegb | hposb
      · apply isValueErrE_mkArray (m := "maxItems must be non-negative")
        · rfl
        · simp [arrayValidate, arrayChecks, firstSome, checkItems, checkPrefixItems,
            checkContains, checkIntKw, isNoneB, isIntPy, toI, not_lt.mpr hpos, hnegb]
      · apply isValueErrE_mkArray (m := "minItems cannot be greater than maxItems")
        · rfl
        · simp [arrayValidate, arrayChecks, firstSome, checkItems, checkPrefixItems,
            checkContains, checkIntKw, checkPairKw, isNoneB, isIntPy, toI,
            not_lt.mpr hpos, not_lt.mpr hposb, h]
  · intro a h
    apply isValueErrE_mkArray (m := "minItems must be non-negative")
    · rfl
    · simp [arrayValidate, arrayChecks, firstSome, checkItems, checkPrefixItems,
        checkContains, checkIntKw, isNoneB, isIntPy, toI, h]
  · intro a h
    apply isValueErrE_mkArray (m := "maxItems must be non-negative")
    · rfl
    · simp [arrayValidate, arrayChecks, firstSome, checkItems, checkPrefixItems,
        checkContains, checkIntKw, isNoneB, isIntPy, toI, h]
  · intro a b h1 h2
    apply isOkE_mkObject
    · rfl
    · simp [objectValidate, objectChecks, firstSome, checkProperties, checkPatternProps,
        checkSchemaBoolKw, checkRequired, checkNodeObj, checkIntKw, checkPairKw,
        checkDepReq, checkDepSchemas, checkCompObj, checkCondReq, checkReqProps,
        isNoneB, isIntPy, toI, not_lt.mpr h1, not_lt.mpr (h1.trans h2), not_lt.mpr h2]
  · intro a b h
    rcases lt_or_le a 0 with hneg | hpos
    · apply isValueErrE_mkObject (m := "minProperties must be non-negative")
      · rfl
      · simp [objectValidate, objectChecks, firstSome, checkProperties, checkPatternProps,
          checkSchemaBoolKw, checkRequired, checkNodeObj, checkIntKw, isNoneB, isIntPy,
          toI, hneg]
    · rcases lt_or_le b 0 with hnegb | hposb
      · apply isValueErrE_mkObject (m := "maxProperties must be non-negative")
        · rfl
        · simp [objectValidate, objectChecks, firstSome, checkProperties,
            checkPatternProps, checkSchemaBoolKw, checkRequired, checkNodeObj,
            checkIntKw, isNoneB, isIntPy, toI, not_lt.mpr hpos, hnegb]
      · apply isValueErrE_mkObject (m := "minProperties cannot be greater than maxProperties")
        · rfl
        · simp [objectValidate, objectChecks, firstSome, checkProperties,
            checkPatternProps, checkSchemaBoolKw, checkRequired, checkNodeObj,
            checkIntKw, checkPairKw, isNoneB, isIntPy, toI, not_lt.mpr hpos,
            not_lt.mpr hposb, h]
  · intro a h
    apply isValueErrE_mkObject (m := "minProperties must be non-negative")
    · rfl
    · simp [objectValidate, objectChecks, firstSome, checkProperties, checkPatternProps,
        checkSchemaBoolKw, checkRequired, checkNodeObj, checkIntKw, isNoneB, isIntPy,
        toI, h]
  · intro a h
    apply isValueErrE_mkObject (m := "maxProperties must be non-negative")
    · rfl
    · simp [objectValidate, objectChecks, firstSome, checkProperties, checkPatternProps,
        checkSchemaBoolKw, checkRequired, checkNodeObj, checkIntKw, isNoneB, isIntPy,
        toI, h]
  · intro a b c hc h1 h2
    apply isOkE_mkArray
    · rfl
    · simp only [arrayValidate, arrayChecks, checkItems, checkPrefixItems, checkContains,
        checkIntKw, checkPairKw, checkContainsBound, checkBoolTypeKw, checkSchemaBoolKw,
        checkCompArr, checkNodeArr, checkCondReq]
      simp only [isNoneB_false_of_schema hc, hc]
      simp [firstSome, isNoneB, isIntPy, toI, not_lt.mpr h1, not_lt.mpr (h1.trans h2),
        not_lt.mpr h2]
  · intro a b c hc h
    rcases lt_or_le a 0 with hneg | hpos
    · apply isValueErrE_mkArray (m := "minContains must be non-negative")
      · rfl
      · simp only [arrayValidate, arrayChecks, checkItems, checkPrefixItems,
          checkContains, checkIntKw, checkContainsBound]
        simp only [isNoneB_false_of_schema hc, hc]
        simp [firstSome, isNoneB, isIntPy, toI, hneg]
    · rcases lt_or_le b 0 with hnegb | hposb
      · apply isValueErrE_mkArray (m := "maxContains must be non-negative")
        · rfl
        · simp only [arrayValidate, arrayChecks, checkItems, checkPrefixItems,
            checkContains, checkIntKw, checkContainsBound]
          simp only [isNoneB_false_of_schema hc, hc]
          simp [firstSome, isNoneB, isIntPy, toI, not_lt.mpr hpos, hnegb]
      · apply isValueErrE_mkArray (m := "minContains cannot be greater than maxContains")
        · rfl
        · simp only [arrayValidate, arrayChecks, checkItems, checkPrefixItems,
            checkContains, checkIntKw, checkPairKw, checkContainsBound]
          simp only [isNoneB_false_of_schema hc, hc]
          simp [firstSome, isNoneB, isIntPy, toI, not_lt.mpr hpos, not_lt.mpr hposb, h]
  · intro a h
    apply isValueErrE_mkArray (m := "minContains must be non-negative")
    · rfl
    · simp [arrayValidate, arrayChecks, firstSome, checkItems, checkPrefixItems,
        checkContains, checkIntKw, checkContainsBound, isNoneB, isIntPy, toI, h]
  · intro a h
    apply isValueErrE_mkArray (m := "maxContains must be non-negative")
    · rfl
    · simp [arrayValidate, arrayChecks, firstSome, checkItems, checkPrefixItems,
        checkContains, checkIntKw, checkContainsBound, isNoneB, isIntPy, toI, h]
  · intro a h
    have hv : arrayValidate { min_contains := PyVal.int a }
        = Option.some (PyErr.valueError "minContains requires contains to be specified") := by
      simp [arrayValidate, arrayChecks, firstSome, checkItems, checkPrefixItems,
        checkContains, checkIntKw, checkContainsBound, isNoneB, isIntPy, toI,
        not_lt.mpr h]
    unfold mkArraySchema
    rw [show baseValidate ({ min_contains := PyVal.int a } : ArrayArgs).toBaseArgs
      = Option.none from rfl, hv]
  · intro a h
    have hv : arrayValidate { max_contains := PyVal.int a }
        = Option.some (PyErr.valueError "maxContains requires contains to be specified") := by
      simp [arrayValidate, arrayChecks, firstSome, checkItems, checkPrefixItems,
        checkContains, checkIntKw, checkContainsBound, isNoneB, isIntPy, toI,
        not_lt.mpr h]
    unfold mkArraySchema
    rw [show baseValidate ({ max_contains := PyVal.int a } : ArrayArgs).toBaseArgs
      = Option.none from rfl, hv]
  · intro a c hc h
    apply isOkE_mkArray
    · rfl
    · simp only [arrayValidate, arrayChecks, checkItems, checkPrefixItems, checkContains,
        checkIntKw, checkPairKw, checkContainsBound, checkBoolTypeKw, checkSchemaBoolKw,
        checkCompArr, checkNodeArr, checkCondReq]
      simp only [isNoneB_false_of_schema hc, hc]
      simp [firstSome, isNoneB, isIntPy, toI, not_lt.mpr h]
  · intro a c hc h
    apply isOkE_mkArray
    · rfl
    · simp only [arrayValidate, arrayChecks, checkItems, checkPrefixItems, checkContains,
        checkIntKw, checkPairKw, checkContainsBound, checkBoolTypeKw, checkSchemaBoolKw,
        checkCompArr, checkNodeArr, checkCondReq]
      simp only [isNoneB_false_of_schema hc, hc]
      simp [firstSome, isNoneB, isIntPy, toI, not_lt.mpr h]

/-- C4 witness: concrete instances of the success and failure conjuncts. -/
theorem C4_range_pairs_witness :
    isOkE (mkArraySchema { min_items := PyVal.int 1, max_items := PyVal.int 3 }) = true
    ∧ isValueErrE (mkArraySchema { min_items := PyVal.int 4, max_items := PyVal.int 2 }) = true
    ∧ isValueErrE (mkObjectSchema { min_properties := PyVal.int (-1) }) = true
    ∧ mkArraySchema { min_contains := PyVal.int 1 }
        = Except.error (PyErr.valueError "minContains requires contains to be specified")
    ∧ isOkE (mkArraySchema
        { contains := PyVal.schemaObj SchemaKind.base (baseFields {}) [],
          min_contains := PyVal.int 1 }) = true := by
  refine ⟨?_, ?_, ?_, ?_, ?_⟩
  · exact C4_range_pairs.1 1 3 (by decide) (by decide)
  · exact C4_range_pairs.2.1 4 2 (by decide)
  · exact C4_range_pairs.2.2.2.2.2.2.1 (-1) (by decide)
  · exact C4_range_pairs.2.2.2.2.2.2.2.2.2.2.2.2.1 1 (by decide)
  · exact C4_range_pairs.2.2.2.2.2.2.2.2.2.2.2.2.2.2.1 1
      (PyVal.schemaObj SchemaKind.base (baseFields {}) []) rfl (by decide)

/-- Any non-`ArraySchema` member makes the array composition member loop
fail with its constant `TypeError`. -/
theorem compMembersArr_some {kw : String} {v : PyVal} :
    ∀ {l : List PyVal}, v ∈ l → isArraySchemaInst v = false →
      compMembersArr kw l
        = Option.some (PyErr.typeError ("All " ++ kw ++ " items must be ArraySchema instances")) := by
  intro l hmem hbad
  induction l with
  | nil => cases hmem
  | cons hd tl ih =>
    by_cases hh : isArraySchemaInst hd = true
    · have : v ∈ tl := by
        cases hmem with
        | head => rw [hh] at hbad; exact absurd hbad (by simp)
        | tail _ h => exact h
      simp [compMembersArr, hh, ih this]
    · simp only [Bool.not_eq_true] at hh
      simp [compMembersArr, hh]

/-- All-`Schema` members make the object composition member loop pass. -/
theorem compMembersObj_none {kw : String} :
    ∀ {l : List PyVal}, (∀ v ∈ l, isSchemaInst v = true) →
      compMembersObj kw l = Option.none := by
  intro l hall
  induction l with
  | nil => rfl
  | cons hd tl ih =>
    have hh : isSchemaInst hd = true := hall hd (by simp)
    simp [compMembersObj, hh, ih (fun v hv => hall v (by simp [hv]))]

/-- A non-empty concatenation is not empty. -/
theorem append_cons_isEmpty_false (xs ys : List PyVal) (v : PyVal) :
    (xs ++ v :: ys).isEmpty = false := by
  cases xs <;> rfl

/-- C5: `allOf`/`anyOf`/`oneOf` supplied as an empty sequence fail both
constructors with a `ValueError`; for `ArraySchema`, a composition sequence
containing any member that is not an `ArraySchema` fails with the member
`TypeError`; `ObjectSchema` accepts any non-empty sequence of schema-node
members of any family. -/
theorem C5_composition_family_rules :
    mkArraySchema { all_of := PyVal.list [] }
        = Except.error (PyErr.valueError "allOf must contain at least one schema")
    ∧ mkArraySchema { any_of := PyVal.list [] }
        = Except.error (PyErr.valueError "anyOf must contain at least one schema")
    ∧ mkArraySchema { one_of := PyVal.list [] }
        = Except.error (PyErr.valueError "oneOf must contain at least one schema")
    ∧ mkObjectSchema { all_of := PyVal.list [] }
        = Except.error (PyErr.valueError "allOf must contain at least one schema")
    ∧ mkObjectSchema { any_of := PyVal.list [] }
        = Except.error (PyErr.valueError "anyOf must contain at least one schema")
    ∧ mkObjectSchema { one_of := PyVal.list [] }
        = Except.error (PyErr.valueError "oneOf must contain at least one schema")
    ∧ (∀ (xs ys : List PyVal) (v : PyVal), isArraySchemaInst v = false →
        mkArraySchema { all_of := PyVal.list (xs ++ v :: ys) }
          = Except.error (PyErr.typeError "All allOf items must be ArraySchema instances"))
    ∧ (∀ (xs ys : List PyVal) (v : PyVal), isArraySchemaInst v = false →
        mkArraySchema { any_of := PyVal.list (xs ++ v :: ys) }
          = Except.error (PyErr.typeError "All anyOf items must be ArraySchema instances"))
    ∧ (∀ (xs ys : List PyVal) (v : PyVal), isArraySchemaInst v = false →
        mkArraySchema { one_of := PyVal.list (xs ++ v :: ys) }
          = Except.error (PyErr.typeError "All oneOf items must be ArraySchema instances"))
    ∧ (∀ (xs : List PyVal), xs.isEmpty = false → (∀ v ∈ xs, isSchemaInst v = true) →
        isOkE (mkObjectSchema { all_of := PyVal.list xs }) = true)
    ∧ (∀ (xs : List PyVal), xs.isEmpty = false → (∀ v ∈ xs, isSchemaInst v = true) →
        isOkE (mkObjectSchema { any_of := PyVal.list xs }) = true)
    ∧ (∀ (xs : List PyVal), xs.isEmpty = false → (∀ v ∈ xs, isSchemaInst v = true) →
        isOkE (mkObjectSchema { one_of := PyVal.list xs }) = true) := by
  refine ⟨rfl, rfl, rfl, rfl, rfl, rfl, ?_, ?_, ?_, ?_, ?_, ?_⟩
  · intro xs ys v hv
    unfold mkArraySchema
    rw [show baseValidate ({ all_of := PyVal.list (xs ++ v :: ys) } : ArrayArgs).toBaseArgs
      = Option.none from rfl]
    have hm : arrayValidate { all_of := PyVal.list (xs ++ v :: ys) }
        = Option.some (PyErr.typeError "All allOf items must be ArraySchema instances") := by
      simp [arrayValidate, arrayChecks, firstSome, checkItems, checkPrefixItems,
        checkContains, checkIntKw, checkPairKw, checkContainsBound, checkBoolTypeKw,
        checkSchemaBoolKw, checkCompArr, isNoneB, isListPy, asList,
        append_cons_isEmpty_false,
        compMembersArr_some (List.mem_append_right xs (List.mem_cons_self v ys)) hv]
    rw [hm]
  · intro xs ys v hv
    unfold mkArraySchema
    rw [show baseValidate ({ any_of := PyVal.list (xs ++ v :: ys) } : ArrayArgs).toBaseArgs
      = Option.none from rfl]
    have hm : arrayValidate { any_of := PyVal.list (xs ++ v :: ys) }
        = Option.some (PyErr.typeError "All anyOf items must be ArraySchema instances") := by
      simp [arrayValidate, arrayChecks, firstSome, checkItems, checkPrefixItems,
        checkContains, checkIntKw, checkPairKw, checkContainsBound, checkBoolTypeKw,
        checkSchemaBoolKw, checkCompArr, isNoneB, isListPy, asList,
        append_cons_isEmpty_false,
        compMembersArr_some (List.mem_append_right xs (List.mem_cons_self v ys)) hv]
    rw [hm]
  · intro xs ys v hv
    unfold mkArraySchema
    rw [show baseValidate ({ one_of := PyVal.list (xs ++ v :: ys) } : ArrayArgs).toBaseArgs
      = Option.none from rfl]
    have hm : arrayValidate { one_of := PyVal.list (xs ++ v :: ys) }
        = Option.some (PyErr.typeError "All oneOf items must be ArraySchema instances") := by
      simp [arrayValidate, arrayChecks, firstSome, checkItems, checkPrefixItems,
        checkContains, checkIntKw, checkPairKw, checkContainsBound, checkBoolTypeKw,
        checkSchemaBoolKw, checkCompArr, isNoneB, isListPy, asList,
        append_cons_isEmpty_false,
        compMembersArr_some (List.mem_append_right xs (List.mem_cons_self v ys)) hv]
    rw [hm]
  · intro xs hne hall
    apply isOkE_mkObject
    · rfl
    · simp [objectValidate, objectChecks, firstSome, checkProperties, checkPatternProps,
        checkSchemaBoolKw, checkRequired, checkNodeObj, checkIntKw, checkPairKw,
        checkDepReq, checkDepSchemas, checkCompObj, checkCondReq, checkReqProps,
        isNoneB, isListPy, asList, hne, compMembersObj_none hall]
  · intro xs hne hall
    apply isOkE_mkObject
    · rfl
    · simp [objectValidate, objectChecks, firstSome, checkProperties, checkPatternProps,
        checkSchemaBoolKw, checkRequired, checkNodeObj, checkIntKw, checkPairKw,
        checkDepReq, checkDepSchemas, checkCompObj, checkCondReq, checkReqProps,
        isNoneB, isListPy, asList, hne, compMembersObj_none hall]
  · intro xs hne hall
    apply isOkE_mkObject
    · rfl
    · simp [objectValidate, objectChecks, firstSome, checkProperties, checkPatternProps,
        checkSchemaBoolKw, checkRequired, checkNodeObj, checkIntKw, checkPairKw,
        checkDepReq, checkDepSchemas, checkCompObj, checkCondReq, checkReqProps,
        isNoneB, isListPy, asList, hne, compMembersObj_none hall]

/-- C5 witness: an `ObjectSchema` member inside an `ArraySchema`'s `allOf`
fails; an `ObjectSchema` whose `allOf` holds an `ArraySchema` member
succeeds. -/
theorem C5_composition_family_rules_witness :
    mkArraySchema
        { all_of := PyVal.list [PyVal.schemaObj SchemaKind.object (baseFields {}) (objectFields {})] }
      = Except.error (PyErr.typeError "All allOf items must be ArraySchema instances")
    ∧ isOkE (mkObjectSchema
        { all_of := PyVal.list [PyVal.schemaObj SchemaKind.array (baseFields {}) (arrayFields {})] })
      = true := by
  constructor
  · exact C5_composition_family_rules.2.2.2.2.2.2.1 [] []
      (PyVal.schemaObj SchemaKind.object (baseFields {}) (objectFields {})) rfl
  · exact C5_composition_family_rules.2.2.2.2.2.2.2.2.2.1
      [PyVal.schemaObj SchemaKind.array (baseFields {}) (arrayFields {})] rfl
      (by intro v hv; cases hv with
          | head => rfl
          | tail _ h => cases h)

/-- Valid `properties` entries pass the entry loop. -/
theorem propsEntries_none : ∀ {es : List (PyVal × PyVal)},
    propsEntriesOK es = true → propsEntries es = Option.none := by
  intro es h
  induction es with
  | nil => rfl
  | cons hd tl ih =>
    obtain ⟨k, v⟩ := hd
    rw [propsEntriesOK, List.all_cons] at h
    rw [Bool.and_eq_true] at h
    obtain ⟨h1, h2⟩ := h
    simp only [Bool.and_eq_true, Bool.not_eq_true'] at h1
    simp [propsEntries, h1.1.1, h1.1.2, h1.2, ih h2]

/-- Valid `required` names pass the name loop. -/
theorem requiredNames_none : ∀ {xs : List PyVal},
    reqNamesOK xs = true → requiredNames xs = Option.none := by
  intro xs h
  induction xs with
  | nil => rfl
  | cons hd tl ih =>
    rw [reqNamesOK, List.all_cons] at h
    rw [Bool.and_eq_true] at h
    obtain ⟨h1, h2⟩ := h
    simp only [Bool.and_eq_true, Bool.not_eq_true'] at h1
    simp [requiredNames, h1.1, h1.2, ih h2]

/-- When every required name is a `properties` key, the final consistency
loop passes. -/
theorem reqPropsLoop_none {props : List (PyVal × PyVal)} : ∀ {l : List PyVal},
    (∀ v ∈ l, dictHasKey props v = true) → reqPropsLoop props l = Option.none := by
  intro l h
  induction l with
  | nil => rfl
  | cons hd tl ih =>
    have hh := h hd (by simp)
    simp [reqPropsLoop, hh, ih (fun v hv => h v (by simp [hv]))]

/-- The consistency loop fails at the first missing name, citing it. -/
theorem reqPropsLoop_first {props : List (PyVal × PyVal)} {v : PyVal} {ys : List PyVal}
    (hv : dictHasKey props v = false) : ∀ {xs : List PyVal},
    (∀ u ∈ xs, dictHasKey props u = true) →
    reqPropsLoop props (xs ++ v :: ys)
      = Option.some (PyErr.valueError
          ("required property '" ++ asStr v ++ "' is not defined in properties")) := by
  intro xs h
  induction xs with
  | nil => simp [reqPropsLoop, hv]
  | cons hd tl ih =>
    have hh := h hd (by simp)
    simp [reqPropsLoop, hh, ih (fun u hu => h u (by simp [hu]))]

/-- C6: with both `required` and `properties` supplied, construction fails
with a `ValueError` citing the first required name that is not a
`properties` key; it succeeds when every required name is a key; and with
`properties` absent the membership check is skipped, so any non-empty list
of non-blank required names is accepted. -/
theorem C6_required_properties_consistency :
    (∀ (props : List (PyVal × PyVal)) (xs ys : List PyVal) (v : PyVal),
        propsEntriesOK props = true → reqNamesOK (xs ++ v :: ys) = true →
        (∀ u ∈ xs, dictHasKey props u = true) → dictHasKey props v = false →
        mkObjectSchema { properties := PyVal.dict props, required := PyVal.list (xs ++ v :: ys) }
          = Except.error (PyErr.valueError
              ("required property '" ++ asStr v ++ "' is not defined in properties")))
    ∧ (∀ (props : List (PyVal × PyVal)) (names : List PyVal),
        propsEntriesOK props = true → reqNamesOK names = true → names.isEmpty = false →
        (∀ v ∈ names, dictHasKey props v = true) →
        isOkE (mkObjectSchema
          { properties := PyVal.dict props, required := PyVal.list names }) = true)
    ∧ (∀ (names : List PyVal), reqNamesOK names = true → names.isEmpty = false →
        isOkE (mkObjectSchema { required := PyVal.list names }) = true) := by
  refine ⟨?_, ?_, ?_⟩
  · intro props xs ys v h1 h2 h3 h4
    unfold mkObjectSchema
    rw [show baseValidate
        (({ properties := PyVal.dict props, required := PyVal.list (xs ++ v :: ys) }
          : ObjectArgs)).toBaseArgs = Option.none from rfl]
    have hm : objectValidate
        { properties := PyVal.dict props, required := PyVal.list (xs ++ v :: ys) }
        = Option.some (PyErr.valueError
            ("required property '" ++ asStr v ++ "' is not defined in properties")) := by
      simp [objectValidate, objectChecks, firstSome, checkProperties, checkPatternProps,
        checkSchemaBoolKw, checkRequired, checkNodeObj, checkIntKw, checkPairKw,
        checkDepReq, checkDepSchemas, checkCompObj, checkCondReq, checkReqProps,
        isNoneB, isListPy, isDict, asList, asDict, append_cons_isEmpty_false,
        propsEntries_none h1, requiredNames_none h2, reqPropsLoop_first h4 h3]
    rw [hm]
  · intro props names h1 h2 hne hall
    apply isOkE_mkObject
    · rfl
    · simp [objectValidate, objectChecks, firstSome, checkProperties, checkPatternProps,
        checkSchemaBoolKw, checkRequired, checkNodeObj, checkIntKw, checkPairKw,
        checkDepReq, checkDepSchemas, checkCompObj, checkCondReq, checkReqProps,
        isNoneB, isListPy, isDict, asList, asDict, hne,
        propsEntries_none h1, requiredNames_none h2, reqPropsLoop_none hall]
  · intro names h1 hne
    apply isOkE_mkObject
    · rfl
    · simp [objectValidate, objectChecks, firstSome, checkProperties, checkPatternProps,
        checkSchemaBoolKw, checkRequired, checkNodeObj, checkIntKw, checkPairKw,
        checkDepReq, checkDepSchemas, checkCompObj, checkCondReq, checkReqProps,
        isNoneB, isListPy, asList, hne, requiredNames_none h1]

/-- C6 witness: `properties={"name": node}` with `required=["name"]`
succeeds; `required=["missing"]` with the same properties fails citing
`missing`. -/
theorem C6_required_properties_consistency_witness :
    isOkE (mkObjectSchema
        { properties := PyVal.dict
            [(PyVal.str "name", PyVal.schemaObj SchemaKind.base (baseFields {}) [])],
          required := PyVal.list [PyVal.str "name"] }) = true
    ∧ mkObjectSchema
        { properties := PyVal.dict
            [(PyVal.str "name", PyVal.schemaObj SchemaKind.base (baseFields {}) [])],
          required := PyVal.list [PyVal.str "missing"] }
      = Except.error (PyErr.valueError
          "required property 'missing' is not defined in properties") := by
  constructor
  · exact C6_required_properties_consistency.2.1
      [(PyVal.str "name", PyVal.schemaObj SchemaKind.base (baseFields {}) [])]
      [PyVal.str "name"] rfl rfl rfl
      (by intro v hv; cases hv with
          | head => rfl
          | tail _ h => cases h)
  · exact C6_required_properties_consistency.1
      [(PyVal.str "name", PyVal.schemaObj SchemaKind.base (baseFields {}) [])]
      [] [] (PyVal.str "missing") rfl rfl
      (by intro u hu; cases hu) rfl

/-- An `ArraySchema` instance is a `Schema` instance. -/
theorem isSchemaInst_of_array {v : PyVal} (h : isArraySchemaInst v = true) :
    isSchemaInst v = true := by
  cases v <;> simp_all [isArraySchemaInst, isSchemaInst]

/-- C7: for both node families, supplying `then` or `else` without `if`
fails construction whatever the other arguments are; supplying `if` alone
succeeds; and supplying `if`, `then` and `else` together succeeds (members
of the right family, other arguments default). -/
theorem C7_conditional_requires_if :
    (∀ (a : ArrayArgs), (isNoneB a.then_ = false ∨ isNoneB a.else_ = false) →
        isNoneB a.if_ = true → isErrE (mkArraySchema a) = true)
    ∧ (∀ (o : ObjectArgs), (isNoneB o.then_ = false ∨ isNoneB o.else_ = false) →
        isNoneB o.if_ = true → isErrE (mkObjectSchema o) = true)
    ∧ (∀ (v : PyVal), isArraySchemaInst v = true →
        isOkE (mkArraySchema { if_ := v }) = true)
    ∧ (∀ (i t e : PyVal), isArraySchemaInst i = true → isArraySchemaInst t = true →
        isArraySchemaInst e = true →
        isOkE (mkArraySchema { if_ := i, then_ := t, else_ := e }) = true)
    ∧ (∀ (v : PyVal), isSchemaInst v = true →
        isOkE (mkObjectSchema { if_ := v }) = true)
    ∧ (∀ (i t e : PyVal), isSchemaInst i = true → isSchemaInst t = true →
        isSchemaInst e = true →
        isOkE (mkObjectSchema { if_ := i, then_ := t, else_ := e }) = true) := by
  refine ⟨?_, ?_, ?_, ?_, ?_, ?_⟩
  · intro a h1 h2
    have hsome : (checkCondReq a.if_ a.then_ a.else_).isSome := by
      rcases h1 with h | h <;> simp [checkCondReq, h, h2]
    have hs := firstSome_isSome_of_mem (l := arrayChecks a) (by simp [arrayChecks]) hsome
    unfold mkArraySchema
    cases hv : baseValidate a.toBaseArgs with
    | some e => rfl
    | none =>
      cases hv2 : arrayValidate a with
      | some e => rfl
      | none =>
        have h3 : firstSome (arrayChecks a) = Option.none := hv2
        rw [h3] at hs
        exact absurd hs (by simp)
  · intro o h1 h2
    have hsome : (checkCondReq o.if_ o.then_ o.else_).isSome := by
      rcases h1 with h | h <;> simp [checkCondReq, h, h2]
    have hs := firstSome_isSome_of_mem (l := objectChecks o) (by simp [objectChecks]) hsome
    unfold mkObjectSchema
    cases hv : baseValidate o.toBaseArgs with
    | some e => rfl
    | none =>
      cases hv2 : objectValidate o with
      | some e => rfl
      | none =>
        have h3 : firstSome (objectChecks o) = Option.none := hv2
        rw [h3] at hs
        exact absurd hs (by simp)
  · intro v hv
    apply isOkE_mkArray
    · rfl
    · simp [arrayValidate, arrayChecks, firstSome, checkItems, checkPrefixItems,
        checkContains, checkIntKw, checkPairKw, checkContainsBound, checkBoolTypeKw,
        checkSchemaBoolKw, checkCompArr, checkNodeArr, checkCondReq, isNoneB, hv]
  · intro i t e hi ht he
    apply isOkE_mkArray
    · rfl
    · simp only [arrayValidate, arrayChecks, checkItems, checkPrefixItems, checkContains,
        checkIntKw, checkPairKw, checkContainsBound, checkBoolTypeKw, checkSchemaBoolKw,
        checkCompArr, checkNodeArr, checkCondReq]
      simp only [hi, ht, he, isNoneB_false_of_schema (isSchemaInst_of_array hi)]
      simp [firstSome, isNoneB]
  · intro v hv
    apply isOkE_mkObject
    · rfl
    · simp [objectValidate, objectChecks, firstSome, checkProperties, checkPatternProps,
        checkSchemaBoolKw, checkRequired, checkNodeObj, checkIntKw, checkPairKw,
        checkDepReq, checkDepSchemas, checkCompObj, checkCondReq, checkReqProps,
        isNoneB, hv]
  · intro i t e hi ht he
    apply isOkE_mkObject
    · rfl
    · simp only [objectValidate, objectChecks, checkProperties, checkPatternProps,
        checkSchemaBoolKw, checkRequired, checkNodeObj, checkIntKw, checkPairKw,
        checkDepReq, checkDepSchemas, checkCompObj, checkCondReq, checkReqProps]
      simp only [hi, ht, he, isNoneB_false_of_schema hi]
      simp [firstSome, isNoneB]

/-- C7 witness: `then` without `if` fails concretely; `if` alone and the
full conditional triple succeed concretely on both families. -/
theorem C7_conditional_requires_if_witness :
    isErrE (mkArraySchema { then_ := PyVal.str "x" }) = true
    ∧ isErrE (mkObjectSchema { else_ := PyVal.bool true }) = true
    ∧ isOkE (mkArraySchema
        { if_ := PyVal.schemaObj SchemaKind.array (baseFields {}) (arrayFields {}) }) = true
    ∧ isOkE (mkObjectSchema
        { if_ := PyVal.schemaObj SchemaKind.base (baseFields {}) [],
          then_ := PyVal.schemaObj SchemaKind.base (baseFields {}) [],
          else_ := PyVal.schemaObj SchemaKind.base (baseFields {}) [] }) = true := by
  refine ⟨?_, ?_, ?_, ?_⟩
  · exact C7_conditional_requires_if.1 _ (Or.inl rfl) rfl
  · exact C7_conditional_requires_if.2.1 _ (Or.inr rfl) rfl
  · exact C7_conditional_requires_if.2.2.1 _ rfl
  · exact C7_conditional_requires_if.2.2.2.2.2 _ _ _ rfl rfl rfl

/-- C8 (amended): every construction failure raises one of exactly two
error kinds (`TypeError`/`ValueError`).  The array- and object-specific
keyword checks distinguish the cause correctly — `TypeError` for a value of
the wrong fundamental kind, `ValueError` for a right-kind value breaking a
semantic rule — but every base-keyword check raises `ValueError` even for
wrong-kind values (only the `$vocabulary` boolean-value check raises
`TypeError` there), and the string key/name checks inside object containers
raise `ValueError` for wrong-kind keys and names. -/
theorem C8_error_kinds_amended :
    (∀ (b : BaseArgs) (e : PyErr), mkSchema b = Except.error e →
        (∃ m, e = PyErr.typeError m) ∨ (∃ m, e = PyErr.valueError m))
    ∧ (∀ (v : PyVal), isNoneB v = false → isStr v = false →
        mkSchema { id_ := v } = Except.error (PyErr.valueError "$id must be a non-empty string"))
    ∧ (∀ (v : PyVal), isNoneB v = false → isStr v = false →
        mkSchema { schema := v } = Except.error (PyErr.valueError "$schema must be a non-empty string"))
    ∧ (∀ (v : PyVal), isNoneB v = false → isStr v = false →
        mkSchema { ref := v } = Except.error (PyErr.valueError "$ref must be a non-empty string"))
    ∧ (∀ (v : PyVal), isNoneB v = false → isStr v = false →
        mkSchema { dynamic_ref := v } = Except.error (PyErr.valueError "$dynamicRef must be a non-empty string"))
    ∧ (∀ (v : PyVal), isNoneB v = false → isStr v = false →
        mkSchema { recursive_ref := v } = Except.error (PyErr.valueError "$recursiveRef must be a non-empty string"))
    ∧ (∀ (v : PyVal), isNoneB v = false → isStr v = false →
        mkSchema { anchor := v } = Except.error (PyErr.valueError "$anchor must be a non-empty string"))
    ∧ (∀ (v : PyVal), isNoneB v = false → isStr v = false →
        mkSchema { dynamic_anchor := v } = Except.error (PyErr.valueError "$dynamicAnchor must be a non-empty string"))
    ∧ (∀ (v : PyVal), isNoneB v = false → isBool v = false →
        mkSchema { recursive_anchor := v } = Except.error (PyErr.valueError "$recursiveAnchor must be a boolean"))
    ∧ (∀ (v : PyVal), isNoneB v = false → isDict v = false →
        mkSchema { vocabulary := v } = Except.error (PyErr.valueError "$vocabulary must be a dictionary"))
    ∧ (∀ (k r : PyVal), isStr k = false →
        mkSchema { vocabulary := PyVal.dict [(k, r)] } = Except.error (PyErr.valueError "$vocabulary keys must be non-empty URI strings"))
    ∧ (∀ (r : PyVal), isBool r = false →
        mkSchema { vocabulary := PyVal.dict [(PyVal.str "https://v", r)] } = Except.error (PyErr.typeError "$vocabulary values must be boolean: https://v"))
    ∧ (∀ (v : PyVal), isNoneB v = false → isBool v = false →
        mkSchema { read_only := v } = Except.error (PyErr.valueError "readOnly must be a boolean"))
    ∧ (∀ (v : PyVal), isNoneB v = false → isBool v = false →
        mkSchema { write_only := v } = Except.error (PyErr.valueError "writeOnly must be a boolean"))
    ∧ (∀ (v : PyVal), isNoneB v = false → isDict v = false →
        mkSchema { definitions := v } = Except.error (PyErr.valueError "definitions must be a dictionary"))
    ∧ (∀ (v : PyVal), isNoneB v = false → isDict v = false →
        mkSchema { defs := v } = Except.error (PyErr.valueError "$defs must be a dictionary"))
    ∧ (∀ (k w : PyVal), isStr k = false →
        mkSchema { definitions := PyVal.dict [(k, w)] } = Except.error (PyErr.valueError "definitions keys must be non-empty strings"))
    ∧ (∀ (k w : PyVal), isStr k = false →
        mkSchema { defs := PyVal.dict [(k, w)] } = Except.error (PyErr.valueError "$defs keys must be non-empty strings"))
    ∧ (∀ (v : PyVal), isNoneB v = false → isListPy v = false → isSchemaInst v = false →
        mkArraySchema { items := v } = Except.error (PyErr.typeError "items must be a Schema instance or list of Schema instances"))
    ∧ (∀ (w : PyVal), isSchemaInst w = false →
        mkArraySchema { items := PyVal.list [w] } = Except.error (PyErr.typeError "All items in 'items' list must be Schema instances"))
    ∧ (∀ (v : PyVal), isNoneB v = false → isListPy v = false →
        mkArraySchema { prefix_items := v } = Except.error (PyErr.typeError "prefixItems must be a list"))
    ∧ (∀ (w : PyVal), isSchemaInst w = false →
        mkArraySchema { prefix_items := PyVal.list [w] } = Except.error (PyErr.typeError "All items in prefixItems must be Schema instances"))
    ∧ (∀ (v : PyVal), isNoneB v = false → isSchemaInst v = false →
        mkArraySchema { contains := v } = Except.error (PyErr.typeError "contains must be a Schema instance"))
    ∧ (∀ (v : PyVal), isNoneB v = false → isIntPy v = false →
        mkArraySchema { min_items := v } = Except.error (PyErr.typeError "minItems must be an integer"))
    ∧ (∀ (v : PyVal), isNoneB v = false → isIntPy v = false →
        mkArraySchema { max_items := v } = Except.error (PyErr.typeError "maxItems must be an integer"))
    ∧ (∀ (v : PyVal), isNoneB v = false → isIntPy v = false →
        mkArraySchema { min_contains := v } = Except.error (PyErr.typeError "minContains must be an integer"))
    ∧ (∀ (v : PyVal), isNoneB v = false → isIntPy v = false →
        mkArraySchema { max_contains := v } = Except.error (PyErr.typeError "maxContains must be an integer"))
    ∧ (∀ (v : PyVal), isNoneB v = false → isBool v = false →
        mkArraySchema { unique_items := v } = Except.error (PyErr.typeError "uniqueItems must be a boolean"))
    ∧ (∀ (v : PyVal), isNoneB v = false → isSchemaInst v = false → isBool v = false →
        mkArraySchema { unevaluated_items := v } = Except.error (PyErr.typeError "unevaluatedItems must be a Schema instance or boolean"))
    ∧ (∀ (v : PyVal), isNoneB v = false → isListPy v = false →
        mkArraySchema { all_of := v } = Except.error (PyErr.typeError "allOf must be a list"))
    ∧ (∀ (v : PyVal), isNoneB v = false → isListPy v = false →
        mkArraySchema { any_of := v } = Except.error (PyErr.typeError "anyOf must be a list"))
    ∧ (∀ (v : PyVal), isNoneB v = false → isListPy v = false →
        mkArraySchema { one_of := v } = Except.error (PyErr.typeError "oneOf must be a list"))
    ∧ (∀ (w : PyVal), isArraySchemaInst w = false →
        mkArraySchema { all_of := PyVal.list [w] } = Except.error (PyErr.typeError "All allOf items must be ArraySchema instances"))
    ∧ (∀ (v : PyVal), isNoneB v = false → isArraySchemaInst v = false →
        mkArraySchema { not_ := v } = Except.error (PyErr.typeError "not must be an ArraySchema instance"))
    ∧ (∀ (v : PyVal), isNoneB v = false → isArraySchemaInst v = false →
        mkArraySchema { if_ := v } = Except.error (PyErr.typeError "if must be an ArraySchema instance"))
    ∧ (∀ (v : PyVal), isNoneB v = false → isArraySchemaInst v = false →
        mkArraySchema { if_ := PyVal.schemaObj SchemaKind.array (baseFields {}) (arrayFields {}), then_ := v } = Except.error (PyErr.typeError "then must be an ArraySchema instance"))
    ∧ (∀ (v : PyVal), isNoneB v = false → isArraySchemaInst v = false →
        mkArraySchema { if_ := PyVal.schemaObj SchemaKind.array (baseFields {}) (arrayFields {}), else_ := v } = Except.error (PyErr.typeError "else must be an ArraySchema instance"))
    ∧ (∀ n : Int, n < 0 →
        mkArraySchema { min_items := PyVal.int n }
          = Except.error (PyErr.valueError "minItems must be non-negative"))
    ∧ mkArraySchema { min_items := PyVal.int 2, max_items := PyVal.int 1 }
        = Except.error (PyErr.valueError "minItems cannot be greater than maxItems")
    ∧ mkArraySchema { all_of := PyVal.list [] }
        = Except.error (PyErr.valueError "allOf must contain at least one schema")
    ∧ mkArraySchema { then_ := PyVal.bool true }
        = Except.error (PyErr.valueError "'then' and 'else' require 'if' to be specified")
    ∧ mkArraySchema { min_contains := PyVal.int 1 }
        = Except.error (PyErr.valueError "minContains requires contains to be specified")
    ∧ (∀ (v : PyVal), isNoneB v = false → isDict v = false →
        mkObjectSchema { properties := v } = Except.error (PyErr.typeError "properties must be a dictionary"))
    ∧ (∀ (k w : PyVal), isStr k = false →
        mkObjectSchema { properties := PyVal.dict [(k, w)] } = Except.error (PyErr.valueError "properties keys must be non-empty strings"))
    ∧ (∀ (w : PyVal), isSchemaInst w = false →
        mkObjectSchema { properties := PyVal.dict [(PyVal.str "a", w)] } = Except.error (PyErr.typeError "properties values must be Schema instances"))
    ∧ (∀ (v : PyVal), isNoneB v = false → isDict v = false →
        mkObjectSchema { pattern_properties := v } = Except.error (PyErr.typeError "patternProperties must be a dictionary"))
    ∧ (∀ w : PyVal,
        mkObjectSchema { pattern_properties := PyVal.dict [(PyVal.str "(unclosed", w)] }
          = Except.error (PyErr.valueError
              "patternProperties key must be a valid regular expression: "))
    ∧ (∀ (w : PyVal), isSchemaInst w = false →
        mkObjectSchema { pattern_properties := PyVal.dict [(PyVal.str "^a$", w)] } = Except.error (PyErr.typeError "patternProperties values must be Schema instances"))
    ∧ (∀ (v : PyVal), isNoneB v = false → isSchemaInst v = false → isBool v = false →
        mkObjectSchema { additional_properties := v } = Except.error (PyErr.typeError "additionalProperties must be a Schema instance or boolean"))
    ∧ (∀ (v : PyVal), isNoneB v = false → isSchemaInst v = false → isBool v = false →
        mkObjectSchema { unevaluated_properties := v } = Except.error (PyErr.typeError "unevaluatedProperties must be a Schema instance or boolean"))
    ∧ (∀ (v : PyVal), isNoneB v = false → isListPy v = false →
        mkObjectSchema { required := v } = Except.error (PyErr.typeError "required must be a list"))
    ∧ (∀ (w : PyVal), isStr w = false →
        mkObjectSchema { required := PyVal.list [w] } = Except.error (PyErr.valueError "required property names must be non-empty strings"))
    ∧ (∀ (v : PyVal), isNoneB v = false → isSchemaInst v = false →
        mkObjectSchema { property_names := v } = Except.error (PyErr.typeError "propertyNames must be a Schema instance"))
    ∧ (∀ (v : PyVal), isNoneB v = false → isIntPy v = false →
        mkObjectSchema { min_properties := v } = Except.error (PyErr.typeError "minProperties must be an integer"))
    ∧ (∀ (v : PyVal), isNoneB v = false → isIntPy v = false →
        mkObjectSchema { max_properties := v } = Except.error (PyErr.typeError "maxProperties must be an integer"))
    ∧ (∀ (v : PyVal), isNoneB v = false → isDict v = false →
        mkObjectSchema { dependent_required := v } = Except.error (PyErr.typeError "dependentRequired must be a dictionary"))
    ∧ (∀ (k w : PyVal), isStr k = false →
        mkObjectSchema { dependent_required := PyVal.dict [(k, w)] } = Except.error (PyErr.valueError "dependentRequired keys must be non-empty strings"))
    ∧ (∀ (w : PyVal), isListPy w = false →
        mkObjectSchema { dependent_required := PyVal.dict [(PyVal.str "a", w)] } = Except.error (PyErr.typeError "dependentRequired values must be lists"))
    ∧ mkObjectSchema { dependent_required := PyVal.dict [(PyVal.str "a", PyVal.list [])] }
        = Except.error (PyErr.valueError
            "dependentRequired lists must contain at least one property name")
    ∧ (∀ (w : PyVal), isStr w = false →
        mkObjectSchema { dependent_required := PyVal.dict [(PyVal.str "a", PyVal.list [w])] } = Except.error (PyErr.valueError "dependentRequired property names must be non-empty strings"))
    ∧ (∀ (v : PyVal), isNoneB v = false → isDict v = false →
        mkObjectSchema { dependent_schemas := v } = Except.error (PyErr.typeError "dependentSchemas must be a dictionary"))
    ∧ (∀ (w : PyVal), isSchemaInst w = false →
        mkObjectSchema { dependent_schemas := PyVal.dict [(PyVal.str "a", w)] } = Except.error (PyErr.typeError "dependentSchemas values must be Schema instances"))
    ∧ (∀ (w : PyVal), isSchemaInst w = false →
        mkObjectSchema { all_of := PyVal.list [w] } = Except.error (PyErr.typeError "All allOf items must be Schema instances"))
    ∧ (∀ (v : PyVal), isNoneB v = false → isSchemaInst v = false →
        mkObjectSchema { not_ := v } = Except.error (PyErr.typeError "not must be a Schema instance"))
    ∧ (∀ (v : PyVal), isNoneB v = false → isSchemaInst v = false →
        mkObjectSchema { if_ := v } = Except.error (PyErr.typeError "if must be a Schema instance"))
    ∧ (∀ (v : PyVal), isNoneB v = false → isSchemaInst v = false →
        mkObjectSchema { if_ := PyVal.schemaObj SchemaKind.base (baseFields {}) [], then_ := v } = Except.error (PyErr.typeError "then must be a Schema instance"))
    ∧ mkObjectSchema
        { properties := PyVal.dict [(PyVal.str "a", PyVal.schemaObj SchemaKind.base (baseFields {}) [])],
          required := PyVal.list [PyVal.str "b"] }
        = Except.error (PyErr.valueError "required property 'b' is not defined in properties")
    ∧ mkObjectSchema { min_properties := PyVal.int 2, max_properties := PyVal.int 1 }
        = Except.error (PyErr.valueError "minProperties cannot be greater than maxProperties") := by
  refine ⟨?_, ?_, ?_, ?_, ?_, ?_, ?_, ?_, ?_, ?_, ?_, ?_, ?_, ?_, ?_, ?_, ?_, ?_, ?_, ?_, ?_, ?_, ?_, ?_, ?_, ?_, ?_, ?_, ?_, ?_, ?_, ?_, ?_, ?_, ?_, ?_, ?_, ?_, ?_, ?_, ?_, ?_, ?_, ?_, ?_, ?_, ?_, ?_, ?_, ?_, ?_, ?_, ?_, ?_, ?_, ?_, ?_, ?_, ?_, ?_, ?_, ?_, ?_, ?_, ?_, ?_, ?_, ?_⟩
  · intro b e _
    cases e with
    | typeError m => exact Or.inl ⟨m, rfl⟩
    | valueError m => exact Or.inr ⟨m, rfl⟩
  · intro v h1 h2
    unfold mkSchema
    have hm : baseValidate { id_ := v }
        = Option.some (PyErr.valueError "$id must be a non-empty string") := by
      simp only [baseValidate, baseChecks, checkUriKw, checkUriRefKw, checkRefExcl,
        checkAnchorExcl, checkAnchorKw, checkRecAnchor, checkVocab, vocabEntries,
        checkReadWrite, checkBoolValKw, checkDefsExcl, checkDefsKw, defsKeys]
      simp only [h1, h2]
      simp [firstSome, isNoneB, isTrueB, isStr, isBool, isDict, asStr, asDict]
    rw [hm]
  · intro v h1 h2
    unfold mkSchema
    have hm : baseValidate { schema := v }
        = Option.some (PyErr.valueError "$schema must be a non-empty string") := by
      simp only [baseValidate, baseChecks, checkUriKw, checkUriRefKw, checkRefExcl,
        checkAnchorExcl, checkAnchorKw, checkRecAnchor, checkVocab, vocabEntries,
        checkReadWrite, checkBoolValKw, checkDefsExcl, checkDefsKw, defsKeys]
      simp only [h1, h2]
      simp [firstSome, isNoneB, isTrueB, isStr, isBool, isDict, asStr, asDict]
    rw [hm]
  · intro v h1 h2
    unfold mkSchema
    have hm : baseValidate { ref := v }
        = Option.some (PyErr.valueError "$ref must be a non-empty string") := by
      simp only [baseValidate, baseChecks, checkUriKw, checkUriRefKw, checkRefExcl,
        checkAnchorExcl, checkAnchorKw, checkRecAnchor, checkVocab, vocabEntries,
        checkReadWrite, checkBoolValKw, checkDefsExcl, checkDefsKw, defsKeys]
      simp only [h1, h2]
      simp [firstSome, isNoneB, isTrueB, isStr, isBool, isDict, asStr, asDict]
    rw [hm]
  · intro v h1 h2
    unfold mkSchema
    have hm : baseValidate { dynamic_ref := v }
        = Option.some (PyErr.valueError "$dynamicRef must be a non-empty string") := by
      simp only [baseValidate, baseChecks, checkUriKw, checkUriRefKw, checkRefExcl,
        checkAnchorExcl, checkAnchorKw, checkRecAnchor, checkVocab, vocabEntries,
        checkReadWrite, checkBoolValKw, checkDefsExcl, checkDefsKw, defsKeys]
      simp only [h1, h2]
      simp [firstSome, isNoneB, isTrueB, isStr, isBool, isDict, asStr, asDict]
    rw [hm]
  · intro v h1 h2
    unfold mkSchema
    have hm : baseValidate { recursive_ref := v }
        = Option.some (PyErr.valueError "$recursiveRef must be a non-empty string") := by
      simp only [baseValidate, baseChecks, checkUriKw, checkUriRefKw, checkRefExcl,
        checkAnchorExcl, checkAnchorKw, checkRecAnchor, checkVocab, vocabEntries,
        checkReadWrite, checkBoolValKw, checkDefsExcl, checkDefsKw, defsKeys]
      simp only [h1, h2]
      simp [firstSome, isNoneB, isTrueB, isStr, isBool, isDict, asStr, asDict]
    rw [hm]
  · intro v h1 h2
    unfold mkSchema
    have hm : baseValidate { anchor := v }
        = Option.some (PyErr.valueError "$anchor must be a non-empty string") := by
      simp only [baseValidate, baseChecks, checkUriKw, checkUriRefKw, checkRefExcl,
        checkAnchorExcl, checkAnchorKw, checkRecAnchor, checkVocab, vocabEntries,
        checkReadWrite, checkBoolValKw, checkDefsExcl, checkDefsKw, defsKeys]
      simp only [h1, h2]
      simp [firstSome, isNoneB, isTrueB, isStr, isBool, isDict, asStr, asDict]
    rw [hm]
  · intro v h1 h2
    unfold mkSchema
    have hm : baseValidate { dynamic_anchor := v }
        = Option.some (PyErr.valueError "$dynamicAnchor must be a non-empty string") := by
      simp only [baseValidate, baseChecks, checkUriKw, checkUriRefKw, checkRefExcl,
        checkAnchorExcl, checkAnchorKw, checkRecAnchor, checkVocab, vocabEntries,
        checkReadWrite, checkBoolValKw, checkDefsExcl, checkDefsKw, defsKeys]
      simp only [h1, h2]
      simp [firstSome, isNoneB, isTrueB, isStr, isBool, isDict, asStr, asDict]
    rw [hm]
  · intro v h1 h2
    unfold mkSchema
    have hm : baseValidate { recursive_anchor := v }
        = Option.some (PyErr.valueError "$recursiveAnchor must be a boolean") := by
      simp only [baseValidate, baseChecks, checkUriKw, checkUriRefKw, checkRefExcl,
        checkAnchorExcl, checkAnchorKw, checkRecAnchor, checkVocab, vocabEntries,
        checkReadWrite, checkBoolValKw, checkDefsExcl, checkDefsKw, defsKeys]
      simp only [h1, h2]
      simp [firstSome, isNoneB, isTrueB, isStr, isBool, isDict, asStr, asDict]
    rw [hm]
  · intro v h1 h2
    unfold mkSchema
    have hm : baseValidate { vocabulary := v }
        = Option.some (PyErr.valueError "$vocabulary must be a dictionary") := by
      simp only [baseValidate, baseChecks, checkUriKw, checkUriRefKw, checkRefExcl,
        checkAnchorExcl, checkAnchorKw, checkRecAnchor, checkVocab, vocabEntries,
        checkReadWrite, checkBoolValKw, checkDefsExcl, checkDefsKw, defsKeys]
      simp only [h1, h2]
      simp [firstSome, isNoneB, isTrueB, isStr, isBool, isDict, asStr, asDict]
    rw [hm]
  · intro k r h1
    unfold mkSchema
    have hm : baseValidate { vocabulary := PyVal.dict [(k, r)] }
        = Option.some (PyErr.valueError "$vocabulary keys must be non-empty URI strings") := by
      simp only [baseValidate, baseChecks, checkUriKw, checkUriRefKw, checkRefExcl,
        checkAnchorExcl, checkAnchorKw, checkRecAnchor, checkVocab, vocabEntries,
        checkReadWrite, checkBoolValKw, checkDefsExcl, checkDefsKw, defsKeys]
      simp only [h1]
      simp [firstSome, isNoneB, isTrueB, isStr, isBool, isDict, asStr, asDict]
    rw [hm]
  · intro r h1
    unfold mkSchema
    have hm : baseValidate { vocabulary := PyVal.dict [(PyVal.str "https://v", r)] }
        = Option.some (PyErr.typeError "$vocabulary values must be boolean: https://v") := by
      simp only [baseValidate, baseChecks, checkUriKw, checkUriRefKw, checkRefExcl,
        checkAnchorExcl, checkAnchorKw, checkRecAnchor, checkVocab, vocabEntries,
        checkReadWrite, checkBoolValKw, checkDefsExcl, checkDefsKw, defsKeys]
      have hb : pyBlankStr "https://v" = false := rfl
      have hu : py_is_valid_uri "https://v" = true := rfl
      simp only [h1, hb, hu]
      simp [firstSome, isNoneB, isTrueB, isStr, isBool, isDict, asStr, asDict]
    rw [hm]
  · intro v h1 h2
    unfold mkSchema
    have hm : baseValidate { read_only := v }
        = Option.some (PyErr.valueError "readOnly must be a boolean") := by
      simp only [baseValidate, baseChecks, checkUriKw, checkUriRefKw, checkRefExcl,
        checkAnchorExcl, checkAnchorKw, checkRecAnchor, checkVocab, vocabEntries,
        checkReadWrite, checkBoolValKw, checkDefsExcl, checkDefsKw, defsKeys]
      simp only [h1, h2]
      simp [firstSome, isNoneB, isTrueB, isStr, isBool, isDict, asStr, asDict]
    rw [hm]
  · intro v h1 h2
    unfold mkSchema
    have hm : baseValidate { write_only := v }
        = Option.some (PyErr.valueError "writeOnly must be a boolean") := by
      simp only [baseValidate, baseChecks, checkUriKw, checkUriRefKw, checkRefExcl,
        checkAnchorExcl, checkAnchorKw, checkRecAnchor, checkVocab, vocabEntries,
        checkReadWrite, checkBoolValKw, checkDefsExcl, checkDefsKw, defsKeys]
      simp only [h1, h2]
      simp [firstSome, isNoneB, isTrueB, isStr, isBool, isDict, asStr, asDict]
    rw [hm]
  · intro v h1 h2
    unfold mkSchema
    have hm : baseValidate { definitions := v }
        = Option.some (PyErr.valueError "definitions must be a dictionary") := by
      simp only [baseValidate, baseChecks, checkUriKw, checkUriRefKw, checkRefExcl,
        checkAnchorExcl, checkAnchorKw, checkRecAnchor, checkVocab, vocabEntries,
        checkReadWrite, checkBoolValKw, checkDefsExcl, checkDefsKw, defsKeys]
      simp only [h1, h2]
      simp [firstSome, isNoneB, isTrueB, isStr, isBool, isDict, asStr, asDict]
    rw [hm]
  · intro v h1 h2
    unfold mkSchema
    have hm : baseValidate { defs := v }
        = Option.some (PyErr.valueError "$defs must be a dictionary") := by
      simp only [baseValidate, baseChecks, checkUriKw, checkUriRefKw, checkRefExcl,
        checkAnchorExcl, checkAnchorKw, checkRecAnchor, checkVocab, vocabEntries,
        checkReadWrite, checkBoolValKw, checkDefsExcl, checkDefsKw, defsKeys]
      simp only [h1, h2]
      simp [firstSome, isNoneB, isTrueB, isStr, isBool, isDict, asStr, asDict]
    rw [hm]
  · intro k w h1
    unfold mkSchema
    have hm : baseValidate { definitions := PyVal.dict [(k, w)] }
        = Option.some (PyErr.valueError "definitions keys must be non-empty strings") := by
      simp only [baseValidate, baseChecks, checkUriKw, checkUriRefKw, checkRefExcl,
        checkAnchorExcl, checkAnchorKw, checkRecAnchor, checkVocab, vocabEntries,
        checkReadWrite, checkBoolValKw, checkDefsExcl, checkDefsKw, defsKeys]
      simp only [h1]
      simp [firstSome, isNoneB, isTrueB, isStr, isBool, isDict, asStr, asDict]
    rw [hm]
  · intro k w h1
    unfold mkSchema
    have hm : baseValidate { defs := PyVal.dict [(k, w)] }
        = Option.some (PyErr.valueError "$defs keys must be non-empty strings") := by
      simp only [baseValidate, baseChecks, checkUriKw, checkUriRefKw, checkRefExcl,
        checkAnchorExcl, checkAnchorKw, checkRecAnchor, checkVocab, vocabEntries,
        checkReadWrite, checkBoolValKw, checkDefsExcl, checkDefsKw, defsKeys]
      simp only [h1]
      simp [firstSome, isNoneB, isTrueB, isStr, isBool, isDict, asStr, asDict]
    rw [hm]
  · intro v h1 h2 h3
    unfold mkArraySchema
    rw [show baseValidate ({ items := v } : ArrayArgs).toBaseArgs = Option.none from rfl]
    have hm : arrayValidate { items := v }
        = Option.some (PyErr.typeError "items must be a Schema instance or list of Schema instances") := by
      simp only [arrayValidate, arrayChecks, checkItems, itemsMembers, checkPrefixItems,
        prefixItemsMembers, checkContains, checkIntKw, checkPairKw, checkContainsBound,
        checkBoolTypeKw, checkSchemaBoolKw, checkCompArr, compMembersArr, checkNodeArr,
        checkCondReq]
      simp only [h1, h2, h3]
      simp [firstSome, isNoneB, isListPy, isSchemaInst, isArraySchemaInst, isBool,
        isIntPy, asList, asStr, toI]
    rw [hm]
  · intro w h1
    unfold mkArraySchema
    rw [show baseValidate ({ items := PyVal.list [w] } : ArrayArgs).toBaseArgs = Option.none from rfl]
    have hm : arrayValidate { items := PyVal.list [w] }
        = Option.some (PyErr.typeError "All items in 'items' list must be Schema instances") := by
      simp only [arrayValidate, arrayChecks, checkItems, itemsMembers, checkPrefixItems,
        prefixItemsMembers, checkContains, checkIntKw, checkPairKw, checkContainsBound,
        checkBoolTypeKw, checkSchemaBoolKw, checkCompArr, compMembersArr, checkNodeArr,
        checkCondReq]
      simp only [h1]
      simp [firstSome, isNoneB, isListPy, isSchemaInst, isArraySchemaInst, isBool,
        isIntPy, asList, asStr, toI]
    rw [hm]
  · intro v h1 h2
    unfold mkArraySchema
    rw [show baseValidate ({ prefix_items := v } : ArrayArgs).toBaseArgs = Option.none from rfl]
    have hm : arrayValidate { prefix_items := v }
        = Option.some (PyErr.typeError "prefixItems must be a list") := by
      simp only [arrayValidate, arrayChecks, checkItems, itemsMembers, checkPrefixItems,
        prefixItemsMembers, checkContains, checkIntKw, checkPairKw, checkContainsBound,
        checkBoolTypeKw, checkSchemaBoolKw, checkCompArr, compMembersArr, checkNodeArr,
        checkCondReq]
      simp only [h1, h2]
      simp [firstSome, isNoneB, isListPy, isSchemaInst, isArraySchemaInst, isBool,
        isIntPy, asList, asStr, toI]
    rw [hm]
  · intro w h1
    unfold mkArraySchema
    rw [show baseValidate ({ prefix_items := PyVal.list [w] } : ArrayArgs).toBaseArgs = Option.none from rfl]
    have hm : arrayValidate { prefix_items := PyVal.list [w] }
        = Option.some (PyErr.typeError "All items in prefixItems must be Schema instances") := by
      simp only [arrayValidate, arrayChecks, checkItems, itemsMembers, checkPrefixItems,
        prefixItemsMembers, checkContains, checkIntKw, checkPairKw, checkContainsBound,
        checkBoolTypeKw, checkSchemaBoolKw, checkCompArr, compMembersArr, checkNodeArr,
        checkCondReq]
      simp only [h1]
      simp [firstSome, isNoneB, isListPy, isSchemaInst, isArraySchemaInst, isBool,
        isIntPy, asList, asStr, toI]
    rw [hm]
  · intro v h1 h2
    unfold mkArraySchema
    rw [show baseValidate ({ contains := v } : ArrayArgs).toBaseArgs = Option.none from rfl]
    have hm : arrayValidate { contains := v }
        = Option.some (PyErr.typeError "contains must be a Schema instance") := by
      simp only [arrayValidate, arrayChecks, checkItems, itemsMembers, checkPrefixItems,
        prefixItemsMembers, checkContains, checkIntKw, checkPairKw, checkContainsBound,
        checkBoolTypeKw, checkSchemaBoolKw, checkCompArr, compMembersArr, checkNodeArr,
        checkCondReq]
      simp only [h1, h2]
      simp [firstSome, isNoneB, isListPy, isSchemaInst, isArraySchemaInst, isBool,
        isIntPy, asList, asStr, toI]
    rw [hm]
  · intro v h1 h2
    unfold mkArraySchema
    rw [show baseValidate ({ min_items := v } : ArrayArgs).toBaseArgs = Option.none from rfl]
    have hm : arrayValidate { min_items := v }
        = Option.some (PyErr.typeError "minItems must be an integer") := by
      simp only [arrayValidate, arrayChecks, checkItems, itemsMembers, checkPrefixItems,
        prefixItemsMembers, checkContains, checkIntKw, checkPairKw, checkContainsBound,
        checkBoolTypeKw, checkSchemaBoolKw, checkCompArr, compMembersArr, checkNodeArr,
        checkCondReq]
      simp only [h1, h2]
      simp [firstSome, isNoneB, isListPy, isSchemaInst, isArraySchemaInst, isBool,
        isIntPy, asList, asStr, toI]
    rw [hm]
  · intro v h1 h2
    unfold mkArraySchema
    rw [show baseValidate ({ max_items := v } : ArrayArgs).toBaseArgs = Option.none from rfl]
    have hm : arrayValidate { max_items := v }
        = Option.some (PyErr.typeError "maxItems must be an integer") := by
      simp only [arrayValidate, arrayChecks, checkItems, itemsMembers, checkPrefixItems,
        prefixItemsMembers, checkContains, checkIntKw, checkPairKw, checkContainsBound,
        checkBoolTypeKw, checkSchemaBoolKw, checkCompArr, compMembersArr, checkNodeArr,
        checkCondReq]
      simp only [h1, h2]
      simp [firstSome, isNoneB, isListPy, isSchemaInst, isArraySchemaInst, isBool,
        isIntPy, asList, asStr, toI]
    rw [hm]
  · intro v h1 h2
    unfold mkArraySchema
    rw [show baseValidate ({ min_contains := v } : ArrayArgs).toBaseArgs = Option.none from rfl]
    have hm : arrayValidate { min_contains := v }
        = Option.some (PyErr.typeError "minContains must be an integer") := by
      simp only [arrayValidate, arrayChecks, checkItems, itemsMembers, checkPrefixItems,
        prefixItemsMembers, checkContains, checkIntKw, checkPairKw, checkContainsBound,
        checkBoolTypeKw, checkSchemaBoolKw, checkCompArr, compMembersArr, checkNodeArr,
        checkCondReq]
      simp only [h1, h2]
      simp [firstSome, isNoneB, isListPy, isSchemaInst, isArraySchemaInst, isBool,
        isIntPy, asList, asStr, toI]
    rw [hm]
  · intro v h1 h2
    unfold mkArraySchema
    rw [show baseValidate ({ max_contains := v } : ArrayArgs).toBaseArgs = Option.none from rfl]
    have hm : arrayValidate { max_contains := v }
        = Option.some (PyErr.typeError "maxContains must be an integer") := by
      simp only [arrayValidate, arrayChecks, checkItems, itemsMembers, checkPrefixItems,
        prefixItemsMembers, checkContains, checkIntKw, checkPairKw, checkContainsBound,
        checkBoolTypeKw, checkSchemaBoolKw, checkCompArr, compMembersArr, checkNodeArr,
        checkCondReq]
      simp only [h1, h2]
      simp [firstSome, isNoneB, isListPy, isSchemaInst, isArraySchemaInst, isBool,
        isIntPy, asList, asStr, toI]
    rw [hm]
  · intro v h1 h2
    unfold mkArraySchema
    rw [show baseValidate ({ unique_items := v } : ArrayArgs).toBaseArgs = Option.none from rfl]
    have hm : arrayValidate { unique_items := v }
        = Option.some (PyErr.typeError "uniqueItems must be a boolean") := by
      simp only [arrayValidate, arrayChecks, checkItems, itemsMembers, checkPrefixItems,
        prefixItemsMembers, checkContains, checkIntKw, checkPairKw, checkContainsBound,
        checkBoolTypeKw, checkSchemaBoolKw, checkCompArr, compMembersArr, checkNodeArr,
        checkCondReq]
      simp only [h1, h2]
      simp [firstSome, isNoneB, isListPy, isSchemaInst, isArraySchemaInst, isBool,
        isIntPy, asList, asStr, toI]
    rw [hm]
  · intro v h1 h2 h3
    unfold mkArraySchema
    rw [show baseValidate ({ unevaluated_items := v } : ArrayArgs).toBaseArgs = Option.none from rfl]
    have hm : arrayValidate { unevaluated_items := v }
        = Option.some (PyErr.typeError "unevaluatedItems must be a Schema instance or boolean") := by
      simp only [arrayValidate, arrayChecks, checkItems, itemsMembers, checkPrefixItems,
        prefixItemsMembers, checkContains, checkIntKw, checkPairKw, checkContainsBound,
        checkBoolTypeKw, checkSchemaBoolKw, checkCompArr, compMembersArr, checkNodeArr,
        checkCondReq]
      simp only [h1, h2, h3]
      simp [firstSome, isNoneB, isListPy, isSchemaInst, isArraySchemaInst, isBool,
        isIntPy, asList, asStr, toI]
    rw [hm]
  · intro v h1 h2
    unfold mkArraySchema
    rw [show baseValidate ({ all_of := v } : ArrayArgs).toBaseArgs = Option.none from rfl]
    have hm : arrayValidate { all_of := v }
        = Option.some (PyErr.typeError "allOf must be a list") := by
      simp only [arrayValidate, arrayChecks, checkItems, itemsMembers, checkPrefixItems,
        prefixItemsMembers, checkContains, checkIntKw, checkPairKw, checkContainsBound,
        checkBoolTypeKw, checkSchemaBoolKw, checkCompArr, compMembersArr, checkNodeArr,
        checkCondReq]
      simp only [h1, h2]
      simp [firstSome, isNoneB, isListPy, isSchemaInst, isArraySchemaInst, isBool,
        isIntPy, asList, asStr, toI]
    rw [hm]
  · intro v h1 h2
    unfold mkArraySchema
    rw [show baseValidate ({ any_of := v } : ArrayArgs).toBaseArgs = Option.none from rfl]
    have hm : arrayValidate { any_of := v }
        = Option.some (PyErr.typeError "anyOf must be a list") := by
      simp only [arrayValidate, arrayChecks, checkItems, itemsMembers, checkPrefixItems,
        prefixItemsMembers, checkContains, checkIntKw, checkPairKw, checkContainsBound,
        checkBoolTypeKw, checkSchemaBoolKw, checkCompArr, compMembersArr, checkNodeArr,
        checkCondReq]
      simp only [h1, h2]
      simp [firstSome, isNoneB, isListPy, isSchemaInst, isArraySchemaInst, isBool,
        isIntPy, asList, asStr, toI]
    rw [hm]
  · intro v h1 h2
    unfold mkArraySchema
    rw [show baseValidate ({ one_of := v } : ArrayArgs).toBaseArgs = Option.none from rfl]
    have hm : arrayValidate { one_of := v }
        = Option.some (PyErr.typeError "oneOf must be a list") := by
      simp only [arrayValidate, arrayChecks, checkItems, itemsMembers, checkPrefixItems,
        prefixItemsMembers, checkContains, checkIntKw, checkPairKw, checkContainsBound,
        checkBoolTypeKw, checkSchemaBoolKw, checkCompArr, compMembersArr, checkNodeArr,
        checkCondReq]
      simp only [h1, h2]
      simp [firstSome, isNoneB, isListPy, isSchemaInst, isArraySchemaInst, isBool,
        isIntPy, asList, asStr, toI]
    rw [hm]
  · intro w h1
    unfold mkArraySchema
    rw [show baseValidate ({ all_of := PyVal.list [w] } : ArrayArgs).toBaseArgs = Option.none from rfl]
    have hm : arrayValidate { all_of := PyVal.list [w] }
        = Option.some (PyErr.typeError "All allOf items must be ArraySchema instances") := by
      simp only [arrayValidate, arrayChecks, checkItems, itemsMembers, checkPrefixItems,
        prefixItemsMembers, checkContains, checkIntKw, checkPairKw, checkContainsBound,
        checkBoolTypeKw, checkSchemaBoolKw, checkCompArr, compMembersArr, checkNodeArr,
        checkCondReq]
      simp only [h1]
      simp [firstSome, isNoneB, isListPy, isSchemaInst, isArraySchemaInst, isBool,
        isIntPy, asList, asStr, toI]
    rw [hm]
  · intro v h1 h2
    unfold mkArraySchema
    rw [show baseValidate ({ not_ := v } : ArrayArgs).toBaseArgs = Option.none from rfl]
    have hm : arrayValidate { not_ := v }
        = Option.some (PyErr.typeError "not must be an ArraySchema instance") := by
      simp only [arrayValidate, arrayChecks, checkItems, itemsMembers, checkPrefixItems,
        prefixItemsMembers, checkContains, checkIntKw, checkPairKw, checkContainsBound,
        checkBoolTypeKw, checkSchemaBoolKw, checkCompArr, compMembersArr, checkNodeArr,
        checkCondReq]
      simp only [h1, h2]
      simp [firstSome, isNoneB, isListPy, isSchemaInst, isArraySchemaInst, isBool,
        isIntPy, asList, asStr, toI]
    rw [hm]
  · intro v h1 h2
    unfold mkArraySchema
    rw [show baseValidate ({ if_ := v } : ArrayArgs).toBaseArgs = Option.none from rfl]
    have hm : arrayValidate { if_ := v }
        = Option.some (PyErr.typeError "if must be an ArraySchema instance") := by
      simp only [arrayValidate, arrayChecks, checkItems, itemsMembers, checkPrefixItems,
        prefixItemsMembers, checkContains, checkIntKw, checkPairKw, checkContainsBound,
        checkBoolTypeKw, checkSchemaBoolKw, checkCompArr, compMembersArr, checkNodeArr,
        checkCondReq]
      simp only [h1, h2]
      simp [firstSome, isNoneB, isListPy, isSchemaInst, isArraySchemaInst, isBool,
        isIntPy, asList, asStr, toI]
    rw [hm]
  · intro v h1 h2
    unfold mkArraySchema
    rw [show baseValidate ({ if_ := PyVal.schemaObj SchemaKind.array (baseFields {}) (arrayFields {}), then_ := v } : ArrayArgs).toBaseArgs = Option.none from rfl]
    have hm : arrayValidate { if_ := PyVal.schemaObj SchemaKind.array (baseFields {}) (arrayFields {}), then_ := v }
        = Option.some (PyErr.typeError "then must be an ArraySchema instance") := by
      simp only [arrayValidate, arrayChecks, checkItems, itemsMembers, checkPrefixItems,
        prefixItemsMembers, checkContains, checkIntKw, checkPairKw, checkContainsBound,
        checkBoolTypeKw, checkSchemaBoolKw, checkCompArr, compMembersArr, checkNodeArr,
        checkCondReq]
      simp only [h1, h2]
      simp [firstSome, isNoneB, isListPy, isSchemaInst, isArraySchemaInst, isBool,
        isIntPy, asList, asStr, toI]
    rw [hm]
  · intro v h1 h2
    unfold mkArraySchema
    rw [show baseValidate ({ if_ := PyVal.schemaObj SchemaKind.array (baseFields {}) (arrayFields {}), else_ := v } : ArrayArgs).toBaseArgs = Option.none from rfl]
    have hm : arrayValidate { if_ := PyVal.schemaObj SchemaKind.array (baseFields {}) (arrayFields {}), else_ := v }
        = Option.some (PyErr.typeError "else must be an ArraySchema instance") := by
      simp only [arrayValidate, arrayChecks, checkItems, itemsMembers, checkPrefixItems,
        prefixItemsMembers, checkContains, checkIntKw, checkPairKw, checkContainsBound,
        checkBoolTypeKw, checkSchemaBoolKw, checkCompArr, compMembersArr, checkNodeArr,
        checkCondReq]
      simp only [h1, h2]
      simp [firstSome, isNoneB, isListPy, isSchemaInst, isArraySchemaInst, isBool,
        isIntPy, asList, asStr, toI]
    rw [hm]
  · intro n h
    unfold mkArraySchema
    rw [show baseValidate ({ min_items := PyVal.int n } : ArrayArgs).toBaseArgs
      = Option.none from rfl]
    have hm : arrayValidate { min_items := PyVal.int n }
        = Option.some (PyErr.valueError "minItems must be non-negative") := by
      simp only [arrayValidate, arrayChecks, checkItems, itemsMembers, checkPrefixItems,
        prefixItemsMembers, checkContains, checkIntKw, checkPairKw, checkContainsBound,
        checkBoolTypeKw, checkSchemaBoolKw, checkCompArr, compMembersArr, checkNodeArr,
        checkCondReq]
      simp [firstSome, isNoneB, isIntPy, toI, h]
    rw [hm]
  · rfl
  · rfl
  · rfl
  · rfl
  · intro v h1 h2
    unfold mkObjectSchema
    rw [show baseValidate ({ properties := v } : ObjectArgs).toBaseArgs = Option.none from rfl]
    have hm : objectValidate { properties := v }
        = Option.some (PyErr.typeError "properties must be a dictionary") := by
      simp only [objectValidate, objectChecks, checkProperties, propsEntries,
        checkPatternProps, patternPropsEntries, checkSchemaBoolKw, checkRequired,
        requiredNames, checkNodeObj, checkIntKw, checkPairKw, checkDepReq, depReqEntries,
        depReqNames, checkDepSchemas, depSchemasEntries, checkCompObj, compMembersObj,
        checkCondReq, checkReqProps, reqPropsLoop]
      simp only [h1, h2]
      simp [firstSome, isNoneB, isListPy, isSchemaInst, isArraySchemaInst, isBool,
        isIntPy, isDict, asList, asStr, asDict, toI]
    rw [hm]
  · intro k w h1
    unfold mkObjectSchema
    rw [show baseValidate ({ properties := PyVal.dict [(k, w)] } : ObjectArgs).toBaseArgs = Option.none from rfl]
    have hm : objectValidate { properties := PyVal.dict [(k, w)] }
        = Option.some (PyErr.valueError "properties keys must be non-empty strings") := by
      simp only [objectValidate, objectChecks, checkProperties, propsEntries,
        checkPatternProps, patternPropsEntries, checkSchemaBoolKw, checkRequired,
        requiredNames, checkNodeObj, checkIntKw, checkPairKw, checkDepReq, depReqEntries,
        depReqNames, checkDepSchemas, depSchemasEntries, checkCompObj, compMembersObj,
        checkCondReq, checkReqProps, reqPropsLoop]
      simp only [h1]
      simp [firstSome, isNoneB, isListPy, isSchemaInst, isArraySchemaInst, isBool,
        isIntPy, isDict, asList, asStr, asDict, toI]
    rw [hm]
  · intro w h1
    unfold mkObjectSchema
    rw [show baseValidate ({ properties := PyVal.dict [(PyVal.str "a", w)] } : ObjectArgs).toBaseArgs = Option.none from rfl]
    have hm : objectValidate { properties := PyVal.dict [(PyVal.str "a", w)] }
        = Option.some (PyErr.typeError "properties values must be Schema instances") := by
      simp only [objectValidate, objectChecks, checkProperties, propsEntries,
        checkPatternProps, patternPropsEntries, checkSchemaBoolKw, checkRequired,
        requiredNames, checkNodeObj, checkIntKw, checkPairKw, checkDepReq, depReqEntries,
        depReqNames, checkDepSchemas, depSchemasEntries, checkCompObj, compMembersObj,
        checkCondReq, checkReqProps, reqPropsLoop]
      have hb : pyBlankStr "a" = false := rfl
      simp only [h1, hb]
      simp [firstSome, isNoneB, isListPy, isSchemaInst, isArraySchemaInst, isBool,
        isIntPy, isDict, asList, asStr, asDict, toI]
    rw [hm]
  · intro v h1 h2
    unfold mkObjectSchema
    rw [show baseValidate ({ pattern_properties := v } : ObjectArgs).toBaseArgs = Option.none from rfl]
    have hm : objectValidate { pattern_properties := v }
        = Option.some (PyErr.typeError "patternProperties must be a dictionary") := by
      simp only [objectValidate, objectChecks, checkProperties, propsEntries,
        checkPatternProps, patternPropsEntries, checkSchemaBoolKw, checkRequired,
        requiredNames, checkNodeObj, checkIntKw, checkPairKw, checkDepReq, depReqEntries,
        depReqNames, checkDepSchemas, depSchemasEntries, checkCompObj, compMembersObj,
        checkCondReq, checkReqProps, reqPropsLoop]
      simp only [h1, h2]
      simp [firstSome, isNoneB, isListPy, isSchemaInst, isArraySchemaInst, isBool,
        isIntPy, isDict, asList, asStr, asDict, toI]
    rw [hm]
  · intro w
    rfl
  · intro w h1
    unfold mkObjectSchema
    rw [show baseValidate ({ pattern_properties := PyVal.dict [(PyVal.str "^a$", w)] } : ObjectArgs).toBaseArgs = Option.none from rfl]
    have hm : objectValidate { pattern_properties := PyVal.dict [(PyVal.str "^a$", w)] }
        = Option.some (PyErr.typeError "patternProperties values must be Schema instances") := by
      simp only [objectValidate, objectChecks, checkProperties, propsEntries,
        checkPatternProps, patternPropsEntries, checkSchemaBoolKw, checkRequired,
        requiredNames, checkNodeObj, checkIntKw, checkPairKw, checkDepReq, depReqEntries,
        depReqNames, checkDepSchemas, depSchemasEntries, checkCompObj, compMembersObj,
        checkCondReq, checkReqProps, reqPropsLoop]
      have hb : pyBlankStr "^a$" = false := rfl
      have hr : re_compile_ok "^a$" = true := rfl
      simp only [h1, hb, hr]
      simp [firstSome, isNoneB, isListPy, isSchemaInst, isArraySchemaInst, isBool,
        isIntPy, isDict, asList, asStr, asDict, toI]
    rw [hm]
  · intro v h1 h2 h3
    unfold mkObjectSchema
    rw [show baseValidate ({ additional_properties := v } : ObjectArgs).toBaseArgs = Option.none from rfl]
    have hm : objectValidate { additional_properties := v }
        = Option.some (PyErr.typeError "additionalProperties must be a Schema instance or boolean") := by
      simp only [objectValidate, objectChecks, checkProperties, propsEntries,
        checkPatternProps, patternPropsEntries, checkSchemaBoolKw, checkRequired,
        requiredNames, checkNodeObj, checkIntKw, checkPairKw, checkDepReq, depReqEntries,
        depReqNames, checkDepSchemas, depSchemasEntries, checkCompObj, compMembersObj,
        checkCondReq, checkReqProps, reqPropsLoop]
      simp only [h1, h2, h3]
      simp [firstSome, isNoneB, isListPy, isSchemaInst, isArraySchemaInst, isBool,
        isIntPy, isDict, asList, asStr, asDict, toI]
    rw [hm]
  · intro v h1 h2 h3
    unfold mkObjectSchema
    rw [show baseValidate ({ unevaluated_properties := v } : ObjectArgs).toBaseArgs = Option.none from rfl]
    have hm : objectValidate { unevaluated_properties := v }
        = Option.some (PyErr.typeError "unevaluatedProperties must be a Schema instance or boolean") := by
      simp only [objectValidate, objectChecks, checkProperties, propsEntries,
        checkPatternProps, patternPropsEntries, checkSchemaBoolKw, checkRequired,
        requiredNames, checkNodeObj, checkIntKw, checkPairKw, checkDepReq, depReqEntries,
        depReqNames, checkDepSchemas, depSchemasEntries, checkCompObj, compMembersObj,
        checkCondReq, checkReqProps, reqPropsLoop]
      simp only [h1, h2, h3]
      simp [firstSome, isNoneB, isListPy, isSchemaInst, isArraySchemaInst, isBool,
        isIntPy, isDict, asList, asStr, asDict, toI]
    rw [hm]
  · intro v h1 h2
    unfold mkObjectSchema
    rw [show baseValidate ({ required := v } : ObjectArgs).toBaseArgs = Option.none from rfl]
    have hm : objectValidate { required := v }
        = Option.some (PyErr.typeError "required must be a list") := by
      simp only [objectValidate, objectChecks, checkProperties, propsEntries,
        checkPatternProps, patternPropsEntries, checkSchemaBoolKw, checkRequired,
        requiredNames, checkNodeObj, checkIntKw, checkPairKw, checkDepReq, depReqEntries,
        depReqNames, checkDepSchemas, depSchemasEntries, checkCompObj, compMembersObj,
        checkCondReq, checkReqProps, reqPropsLoop]
      simp only [h1, h2]
      simp [firstSome, isNoneB, isListPy, isSchemaInst, isArraySchemaInst, isBool,
        isIntPy, isDict, asList, asStr, asDict, toI]
    rw [hm]
  · intro w h1
    unfold mkObjectSchema
    rw [show baseValidate ({ required := PyVal.list [w] } : ObjectArgs).toBaseArgs = Option.none from rfl]
    have hm : objectValidate { required := PyVal.list [w] }
        = Option.some (PyErr.valueError "required property names must be non-empty strings") := by
      simp only [objectValidate, objectChecks, checkProperties, propsEntries,
        checkPatternProps, patternPropsEntries, checkSchemaBoolKw, checkRequired,
        requiredNames, checkNodeObj, checkIntKw, checkPairKw, checkDepReq, depReqEntries,
        depReqNames, checkDepSchemas, depSchemasEntries, checkCompObj, compMembersObj,
        checkCondReq, checkReqProps, reqPropsLoop]
      simp only [h1]
      simp [firstSome, isNoneB, isListPy, isSchemaInst, isArraySchemaInst, isBool,
        isIntPy, isDict, asList, asStr, asDict, toI]
    rw [hm]
  · intro v h1 h2
    unfold mkObjectSchema
    rw [show baseValidate ({ property_names := v } : ObjectArgs).toBaseArgs = Option.none from rfl]
    have hm : objectValidate { property_names := v }
        = Option.some (PyErr.typeError "propertyNames must be a Schema instance") := by
      simp only [objectValidate, objectChecks, checkProperties, propsEntries,
        checkPatternProps, patternPropsEntries, checkSchemaBoolKw, checkRequired,
        requiredNames, checkNodeObj, checkIntKw, checkPairKw, checkDepReq, depReqEntries,
        depReqNames, checkDepSchemas, depSchemasEntries, checkCompObj, compMembersObj,
        checkCondReq, checkReqProps, reqPropsLoop]
      simp only [h1, h2]
      simp [firstSome, isNoneB, isListPy, isSchemaInst, isArraySchemaInst, isBool,
        isIntPy, isDict, asList, asStr, asDict, toI]
    rw [hm]
  · intro v h1 h2
    unfold mkObjectSchema
    rw [show baseValidate ({ min_properties := v } : ObjectArgs).toBaseArgs = Option.none from rfl]
    have hm : objectValidate { min_properties := v }
        = Option.some (PyErr.typeError "minProperties must be an integer") := by
      simp only [objectValidate, objectChecks, checkProperties, propsEntries,
        checkPatternProps, patternPropsEntries, checkSchemaBoolKw, checkRequired,
        requiredNames, checkNodeObj, checkIntKw, checkPairKw, checkDepReq, depReqEntries,
        depReqNames, checkDepSchemas, depSchemasEntries, checkCompObj, compMembersObj,
        checkCondReq, checkReqProps, reqPropsLoop]
      simp only [h1, h2]
      simp [firstSome, isNoneB, isListPy, isSchemaInst, isArraySchemaInst, isBool,
        isIntPy, isDict, asList, asStr, asDict, toI]
    rw [hm]
  · intro v h1 h2
    unfold mkObjectSchema
    rw [show baseValidate ({ max_properties := v } : ObjectArgs).toBaseArgs = Option.none from rfl]
    have hm : objectValidate { max_properties := v }
        = Option.some (PyErr.typeError "maxProperties must be an integer") := by
      simp only [objectValidate, objectChecks, checkProperties, propsEntries,
        checkPatternProps, patternPropsEntries, checkSchemaBoolKw, checkRequired,
        requiredNames, checkNodeObj, checkIntKw, checkPairKw, checkDepReq, depReqEntries,
        depReqNames, checkDepSchemas, depSchemasEntries, checkCompObj, compMembersObj,
        checkCondReq, checkReqProps, reqPropsLoop]
      simp only [h1, h2]
      simp [firstSome, isNoneB, isListPy, isSchemaInst, isArraySchemaInst, isBool,
        isIntPy, isDict, asList, asStr, asDict, toI]
    rw [hm]
  · intro v h1 h2
    unfold mkObjectSchema
    rw [show baseValidate ({ dependent_required := v } : ObjectArgs).toBaseArgs = Option.none from rfl]
    have hm : objectValidate { dependent_required := v }
        = Option.some (PyErr.typeError "dependentRequired must be a dictionary") := by
      simp only [objectValidate, objectChecks, checkProperties, propsEntries,
        checkPatternProps, patternPropsEntries, checkSchemaBoolKw, checkRequired,
        requiredNames, checkNodeObj, checkIntKw, checkPairKw, checkDepReq, depReqEntries,
        depReqNames, checkDepSchemas, depSchemasEntries, checkCompObj, compMembersObj,
        checkCondReq, checkReqProps, reqPropsLoop]
      simp only [h1, h2]
      simp [firstSome, isNoneB, isListPy, isSchemaInst, isArraySchemaInst, isBool,
        isIntPy, isDict, asList, asStr, asDict, toI]
    rw [hm]
  · intro k w h1
    unfold mkObjectSchema
    rw [show baseValidate ({ dependent_required := PyVal.dict [(k, w)] } : ObjectArgs).toBaseArgs = Option.none from rfl]
    have hm : objectValidate { dependent_required := PyVal.dict [(k, w)] }
        = Option.some (PyErr.valueError "dependentRequired keys must be non-empty strings") := by
      simp only [objectValidate, objectChecks, checkProperties, propsEntries,
        checkPatternProps, patternPropsEntries, checkSchemaBoolKw, checkRequired,
        requiredNames, checkNodeObj, checkIntKw, checkPairKw, checkDepReq, depReqEntries,
        depReqNames, checkDepSchemas, depSchemasEntries, checkCompObj, compMembersObj,
        checkCondReq, checkReqProps, reqPropsLoop]
      simp only [h1]
      simp [firstSome, isNoneB, isListPy, isSchemaInst, isArraySchemaInst, isBool,
        isIntPy, isDict, asList, asStr, asDict, toI]
    rw [hm]
  · intro w h1
    unfold mkObjectSchema
    rw [show baseValidate ({ dependent_required := PyVal.dict [(PyVal.str "a", w)] } : ObjectArgs).toBaseArgs = Option.none from rfl]
    have hm : objectValidate { dependent_required := PyVal.dict [(PyVal.str "a", w)] }
        = Option.some (PyErr.typeError "dependentRequired values must be lists") := by
      simp only [objectValidate, objectChecks, checkProperties, propsEntries,
        checkPatternProps, patternPropsEntries, checkSchemaBoolKw, checkRequired,
        requiredNames, checkNodeObj, checkIntKw, checkPairKw, checkDepReq, depReqEntries,
        depReqNames, checkDepSchemas, depSchemasEntries, checkCompObj, compMembersObj,
        checkCondReq, checkReqProps, reqPropsLoop]
      have hb : pyBlankStr "a" = false := rfl
      simp only [h1, hb]
      simp [firstSome, isNoneB, isListPy, isSchemaInst, isArraySchemaInst, isBool,
        isIntPy, isDict, asList, asStr, asDict, toI]
    rw [hm]
  · rfl
  · intro w h1
    unfold mkObjectSchema
    rw [show baseValidate ({ dependent_required := PyVal.dict [(PyVal.str "a", PyVal.list [w])] } : ObjectArgs).toBaseArgs = Option.none from rfl]
    have hm : objectValidate { dependent_required := PyVal.dict [(PyVal.str "a", PyVal.list [w])] }
        = Option.some (PyErr.valueError "dependentRequired property names must be non-empty strings") := by
      simp only [objectValidate, objectChecks, checkProperties, propsEntries,
        checkPatternProps, patternPropsEntries, checkSchemaBoolKw, checkRequired,
        requiredNames, checkNodeObj, checkIntKw, checkPairKw, checkDepReq, depReqEntries,
        depReqNames, checkDepSchemas, depSchemasEntries, checkCompObj, compMembersObj,
        checkCondReq, checkReqProps, reqPropsLoop]
      have hb : pyBlankStr "a" = false := rfl
      simp only [h1, hb]
      simp [firstSome, isNoneB, isListPy, isSchemaInst, isArraySchemaInst, isBool,
        isIntPy, isDict, asList, asStr, asDict, toI]
    rw [hm]
  · intro v h1 h2
    unfold mkObjectSchema
    rw [show baseValidate ({ dependent_schemas := v } : ObjectArgs).toBaseArgs = Option.none from rfl]
    have hm : objectValidate { dependent_schemas := v }
        = Option.some (PyErr.typeError "dependentSchemas must be a dictionary") := by
      simp only [objectValidate, objectChecks, checkProperties, propsEntries,
        checkPatternProps, patternPropsEntries, checkSchemaBoolKw, checkRequired,
        requiredNames, checkNodeObj, checkIntKw, checkPairKw, checkDepReq, depReqEntries,
        depReqNames, checkDepSchemas, depSchemasEntries, checkCompObj, compMembersObj,
        checkCondReq, checkReqProps, reqPropsLoop]
      simp only [h1, h2]
      simp [firstSome, isNoneB, isListPy, isSchemaInst, isArraySchemaInst, isBool,
        isIntPy, isDict, asList, asStr, asDict, toI]
    rw [hm]
  · intro w h1
    unfold mkObjectSchema
    rw [show baseValidate ({ dependent_schemas := PyVal.dict [(PyVal.str "a", w)] } : ObjectArgs).toBaseArgs = Option.none from rfl]
    have hm : objectValidate { dependent_schemas := PyVal.dict [(PyVal.str "a", w)] }
        = Option.some (PyErr.typeError "dependentSchemas values must be Schema instances") := by
      simp only [objectValidate, objectChecks, checkProperties, propsEntries,
        checkPatternProps, patternPropsEntries, checkSchemaBoolKw, checkRequired,
        requiredNames, checkNodeObj, checkIntKw, checkPairKw, checkDepReq, depReqEntries,
        depReqNames, checkDepSchemas, depSchemasEntries, checkCompObj, compMembersObj,
        checkCondReq, checkReqProps, reqPropsLoop]
      have hb : pyBlankStr "a" = false := rfl
      simp only [h1, hb]
      simp [firstSome, isNoneB, isListPy, isSchemaInst, isArraySchemaInst, isBool,
        isIntPy, isDict, asList, asStr, asDict, toI]
    rw [hm]
  · intro w h1
    unfold mkObjectSchema
    rw [show baseValidate ({ all_of := PyVal.list [w] } : ObjectArgs).toBaseArgs = Option.none from rfl]
    have hm : objectValidate { all_of := PyVal.list [w] }
        = Option.some (PyErr.typeError "All allOf items must be Schema instances") := by
      simp only [objectValidate, objectChecks, checkProperties, propsEntries,
        checkPatternProps, patternPropsEntries, checkSchemaBoolKw, checkRequired,
        requiredNames, checkNodeObj, checkIntKw, checkPairKw, checkDepReq, depReqEntries,
        depReqNames, checkDepSchemas, depSchemasEntries, checkCompObj, compMembersObj,
        checkCondReq, checkReqProps, reqPropsLoop]
      simp only [h1]
      simp [firstSome, isNoneB, isListPy, isSchemaInst, isArraySchemaInst, isBool,
        isIntPy, isDict, asList, asStr, asDict, toI]
    rw [hm]
  · intro v h1 h2
    unfold mkObjectSchema
    rw [show baseValidate ({ not_ := v } : ObjectArgs).toBaseArgs = Option.none from rfl]
    have hm : objectValidate { not_ := v }
        = Option.some (PyErr.typeError "not must be a Schema instance") := by
      simp only [objectValidate, objectChecks, checkProperties, propsEntries,
        checkPatternProps, patternPropsEntries, checkSchemaBoolKw, checkRequired,
        requiredNames, checkNodeObj, checkIntKw, checkPairKw, checkDepReq, depReqEntries,
        depReqNames, checkDepSchemas, depSchemasEntries, checkCompObj, compMembersObj,
        checkCondReq, checkReqProps, reqPropsLoop]
      simp only [h1, h2]
      simp [firstSome, isNoneB, isListPy, isSchemaInst, isArraySchemaInst, isBool,
        isIntPy, isDict, asList, asStr, asDict, toI]
    rw [hm]
  · intro v h1 h2
    unfold mkObjectSchema
    rw [show baseValidate ({ if_ := v } : ObjectArgs).toBaseArgs = Option.none from rfl]
    have hm : objectValidate { if_ := v }
        = Option.some (PyErr.typeError "if must be a Schema instance") := by
      simp only [objectValidate, objectChecks, checkProperties, propsEntries,
        checkPatternProps, patternPropsEntries, checkSchemaBoolKw, checkRequired,
        requiredNames, checkNodeObj, checkIntKw, checkPairKw, checkDepReq, depReqEntries,
        depReqNames, checkDepSchemas, depSchemasEntries, checkCompObj, compMembersObj,
        checkCondReq, checkReqProps, reqPropsLoop]
      simp only [h1, h2]
      simp [firstSome, isNoneB, isListPy, isSchemaInst, isArraySchemaInst, isBool,
        isIntPy, isDict, asList, asStr, asDict, toI]
    rw [hm]
  · intro v h1 h2
    unfold mkObjectSchema
    rw [show baseValidate ({ if_ := PyVal.schemaObj SchemaKind.base (baseFields {}) [], then_ := v } : ObjectArgs).toBaseArgs = Option.none from rfl]
    have hm : objectValidate { if_ := PyVal.schemaObj SchemaKind.base (baseFields {}) [], then_ := v }
        = Option.some (PyErr.typeError "then must be a Schema instance") := by
      simp only [objectValidate, objectChecks, checkProperties, propsEntries,
        checkPatternProps, patternPropsEntries, checkSchemaBoolKw, checkRequired,
        requiredNames, checkNodeObj, checkIntKw, checkPairKw, checkDepReq, depReqEntries,
        depReqNames, checkDepSchemas, depSchemasEntries, checkCompObj, compMembersObj,
        checkCondReq, checkReqProps, reqPropsLoop]
      simp only [h1, h2]
      simp [firstSome, isNoneB, isListPy, isSchemaInst, isArraySchemaInst, isBool,
        isIntPy, isDict, asList, asStr, asDict, toI]
    rw [hm]
  · rfl
  · rfl

/-- C8 counterexample: the claim as stated is false — a value of the wrong
fundamental kind supplied as `$id` (an `int` where a string is required)
raises the `ValueError` kind, the same kind a genuine constraint violation
(a negative `minItems`) raises, so the kind does not distinguish the
cause. -/
theorem C8_kind_misclassification_counterexample :
    isStr (PyVal.int 0) = false
    ∧ mkSchema { id_ := PyVal.int 0 }
        = Except.error (PyErr.valueError "$id must be a non-empty string")
    ∧ mkArraySchema { min_items := PyVal.int (-1) }
        = Except.error (PyErr.valueError "minItems must be non-negative") :=
  ⟨rfl, rfl, rfl⟩

/-- C8 witness: the amended theorem applied at concrete inputs — a
wrong-kind `$id` (ValueError), and a wrong-kind `minItems` (TypeError). -/
theorem C8_error_kinds_amended_witness :
    ((∃ m, PyErr.valueError "$id must be a non-empty string" = PyErr.typeError m)
      ∨ (∃ m, PyErr.valueError "$id must be a non-empty string" = PyErr.valueError m))
    ∧ mkSchema { id_ := PyVal.int 7 }
        = Except.error (PyErr.valueError "$id must be a non-empty string")
    ∧ mkArraySchema { min_items := PyVal.str "x" }
        = Except.error (PyErr.typeError "minItems must be an integer") := by
  refine ⟨?_, ?_, ?_⟩
  · exact C8_error_kinds_amended.1 { id_ := PyVal.int 7 } _ rfl
  · exact C8_error_kinds_amended.2.1 (PyVal.int 7) rfl rfl
  · exact C8_error_kinds_amended.2.2.2.2.2.2.2.2.2.2.2.2.2.2.2.2.2.2.2.2.2.2.2.1 (PyVal.str "x") rfl rfl
